import Mathlib

/-!
# Verification of the nutrition-platform recommendation core

Shallow embedding of the hybrid scoring engine, safety rule engine,
recommendation orchestration and configuration state machine of the
nutrition-platform backend (`app/services/scoring_engine.py`,
`app/services/rule_engine.py`, `app/services/recommendation.py`,
`app/services/config.py`), together with theorems settling the frozen
claims about them.

Modelling conventions:
* Python `float` is modelled as `ℚ` (all scores and weights in the source
  are small decimal constants combined by `+ * / min max`).
* Python dicts used as accumulators are modelled as association lists in
  insertion order (`dictAdd` mirrors `d[k] = d.get(k, 0) + v`).
* Python `sorted`/`list.sort` (stable) is modelled by the stable insertion
  sort `sortLe` (a stable sort of a list under a total preorder is unique,
  so any stable sort is extensionally the source's Timsort; insertion sort
  is structurally recursive, which keeps the embedding kernel-computable).
* Python `set` values are modelled as lists where only membership is ever
  consumed downstream, mirroring the source's use.
* The LLM client is absent (`api_key = None` path of the source): the
  deterministic fallback bodies of `_generate_personalized_why` are
  modelled, which is the only deterministic behaviour of `generate`.
* `datetime` fields and opaque JSON `content` payloads are dropped: no
  claim mentions them.
-/

/-- Python's `needle in haystack` substring test, on lists of characters. -/
def containsSeq (needle : List Char) : List Char → Bool
  | [] => needle.isEmpty
  | c :: rest => needle.isPrefixOf (c :: rest) || containsSeq needle rest

/-- Python's `a in b` on strings (substring containment). -/
def strIn (a b : String) : Bool := containsSeq a.data b.data

/-- Python's `int(x)` on a float: truncation toward zero. -/
def pyInt (q : ℚ) : ℤ := if 0 ≤ q then q.floor else -((-q).floor)

/-- Insert `a` into `l`, before the first element `b` with `le a b`. -/
def insertLe {α : Type} (le : α → α → Bool) (a : α) : List α → List α
  | [] => [a]
  | b :: t => if le a b then a :: b :: t else b :: insertLe le a t

/-- Stable insertion sort: the unique stable sort under a total preorder,
hence extensionally Python's `sorted`/`list.sort`. -/
def sortLe {α : Type} (le : α → α → Bool) : List α → List α
  | [] => []
  | a :: t => insertLe le a (sortLe le t)

/-- Association-list lookup, modelling Python `d.get(k)` / `k in d`. -/
def alistGet? {α : Type} (l : List (String × α)) (k : String) : Option α :=
  (l.find? (fun p => p.1 = k)).map (·.2)

/-- Python `d[k] = d.get(k, 0) + v` on an insertion-ordered dict. -/
def dictAdd (l : List (String × ℚ)) (k : String) (v : ℚ) : List (String × ℚ) :=
  match l with
  | [] => [(k, v)]
  | (k', v') :: rest =>
    if k' = k then (k', v' + v) :: rest else (k', v') :: dictAdd rest k v

/-- Python `d.setdefault(k, []).append(r)` on an insertion-ordered dict. -/
def dictAddReason (l : List (String × List String)) (k : String) (r : String) :
    List (String × List String) :=
  match l with
  | [] => [(k, [r])]
  | (k', rs) :: rest =>
    if k' = k then (k', rs ++ [r]) :: rest else (k', rs) :: dictAddReason rest k r

-- ===========================================================================
-- Rule engine (`app/services/rule_engine.py`)
-- ===========================================================================

/-- `RuleAction` enum of `rule_engine.py`. -/
inductive RuleAction where
  | allow
  | warn
  | block
deriving DecidableEq, Repr

/-- `Severity` enum of `rule_engine.py`. -/
inductive Severity where
  | low
  | medium
  | high
  | critical
deriving DecidableEq, Repr

/-- Position of a severity in the comparison order of `Severity.__lt__`. -/
def sevRank : Severity → Nat
  | .low => 0
  | .medium => 1
  | .high => 2
  | .critical => 3

/-- `DrugInteraction` dataclass. -/
structure DrugInteraction where
  drug : String
  nutrient : String
  severity : Severity
  description : String
  description_zh : String
deriving DecidableEq, Repr

/-- `AllergyRule` dataclass. -/
structure AllergyRule where
  allergen : String
  blocked_nutrients : List String
  warning_nutrients : List String
  description : String
  description_zh : String
deriving DecidableEq, Repr

/-- `ChronicConditionRule` dataclass. -/
structure ChronicConditionRule where
  condition : String
  blocked_nutrients : List String
  warning_nutrients : List String
  recommended_nutrients : List String
  description : String
  description_zh : String
deriving DecidableEq, Repr

/-- `SafetyInfo` dataclass of `rule_engine.py`. -/
structure SafetyInfo where
  warnings : List String := []
  requires_professional_consult : Bool := false
  interactions : List DrugInteraction := []
deriving DecidableEq, Repr

/-- `RuleResult` dataclass. -/
structure RuleResult where
  nutrient : String
  action : RuleAction
  reason : Option String := none
  reason_zh : Option String := none
  weight_modifier : ℚ := 1
  safety_info : SafetyInfo := {}
deriving DecidableEq, Repr

/-- `SafetyCheck` dataclass. -/
structure SafetyCheck where
  safe : Bool
  warnings : List String := []
  blocked_by : Option String := none
deriving DecidableEq, Repr

/-- `NutrientCandidate` dataclass. -/
structure NutrientCandidate where
  nutrient : String
  base_score : ℚ
deriving DecidableEq, Repr

/-- A lab-metric record, a Python dict with optional keys accessed through
`m.get("name", "")`, `m.get("value")`, `m.get("flag", "normal")`. -/
structure LabMetric where
  name : Option String := none
  value : Option ℚ := none
  unit : Option String := none
  flag : Option String := none
deriving DecidableEq, Repr

/-- `HealthProfile` dataclass of `rule_engine.py`. -/
structure HealthProfile where
  allergies : List String := []
  chronic_conditions : List String := []
  medications : List String := []
  goals : List String := []
  dietary_preferences : List String := []
  lab_metrics : Option (List LabMetric) := none
deriving DecidableEq, Repr

/-- `ALLERGY_RULES` table (keys lowercase, as in the source). -/
def ALLERGY_RULES : List (String × AllergyRule) := [
  ("shellfish",
   { allergen := "shellfish",
     blocked_nutrients := ["glucosamine", "chitosan", "omega_3_krill"],
     warning_nutrients := ["omega_3"],
     description := "Shellfish allergy may react to shellfish-derived supplements",
     description_zh := "贝类过敏可能对贝类来源的补充剂产生反应" }),
  ("nuts",
   { allergen := "nuts",
     blocked_nutrients := ["almond_protein", "walnut_oil"],
     warning_nutrients := ["vitamin_e"],
     description := "Nut allergy may react to nut-derived supplements",
     description_zh := "坚果过敏可能对坚果来源的补充剂产生反应" }),
  ("dairy",
   { allergen := "dairy",
     blocked_nutrients := ["whey_protein", "casein", "lactoferrin"],
     warning_nutrients := ["calcium", "vitamin_d"],
     description := "Dairy allergy may react to dairy-derived supplements",
     description_zh := "乳制品过敏可能对乳制品来源的补充剂产生反应" }),
  ("gluten",
   { allergen := "gluten",
     blocked_nutrients := ["wheat_germ_oil", "barley_grass"],
     warning_nutrients := ["b_vitamins"],
     description := "Gluten sensitivity may react to gluten-containing supplements",
     description_zh := "麸质敏感可能对含麸质的补充剂产生反应" }),
  ("soy",
   { allergen := "soy",
     blocked_nutrients := ["soy_protein", "soy_lecithin", "soy_isoflavones"],
     warning_nutrients := ["vitamin_e"],
     description := "Soy allergy may react to soy-derived supplements",
     description_zh := "大豆过敏可能对大豆来源的补充剂产生反应" }),
  ("fish",
   { allergen := "fish",
     blocked_nutrients := ["fish_oil", "omega_3_fish", "cod_liver_oil"],
     warning_nutrients := ["omega_3"],
     description := "Fish allergy may react to fish-derived supplements",
     description_zh := "鱼类过敏可能对鱼类来源的补充剂产生反应" })]

/-- `CHRONIC_CONDITION_RULES` table. -/
def CHRONIC_CONDITION_RULES : List (String × ChronicConditionRule) := [
  ("diabetes",
   { condition := "diabetes",
     blocked_nutrients := [],
     warning_nutrients := ["chromium", "alpha_lipoic_acid", "cinnamon"],
     recommended_nutrients := ["vitamin_d", "magnesium", "omega_3", "b_vitamins"],
     description := "Diabetes patients should monitor blood sugar when taking certain supplements",
     description_zh := "糖尿病患者服用某些补充剂时应监测血糖" }),
  ("hypertension",
   { condition := "hypertension",
     blocked_nutrients := ["licorice"],
     warning_nutrients := ["sodium", "caffeine", "ginseng"],
     recommended_nutrients := ["magnesium", "potassium", "omega_3", "coq10"],
     description := "Hypertension patients should avoid supplements that may raise blood pressure",
     description_zh := "高血压患者应避免可能升高血压的补充剂" }),
  ("heart_disease",
   { condition := "heart_disease",
     blocked_nutrients := ["ephedra"],
     warning_nutrients := ["vitamin_e_high_dose", "calcium_high_dose", "iron"],
     recommended_nutrients := ["omega_3", "coq10", "magnesium", "vitamin_d"],
     description := "Heart disease patients should consult before taking certain supplements",
     description_zh := "心脏病患者服用某些补充剂前应咨询医生" }),
  ("thyroid",
   { condition := "thyroid",
     blocked_nutrients := [],
     warning_nutrients := ["iodine", "kelp", "selenium_high_dose"],
     recommended_nutrients := ["selenium", "zinc", "vitamin_d"],
     description := "Thyroid patients should be cautious with iodine-containing supplements",
     description_zh := "甲状腺疾病患者应谨慎使用含碘补充剂" }),
  ("kidney_disease",
   { condition := "kidney_disease",
     blocked_nutrients := ["potassium_high_dose", "phosphorus"],
     warning_nutrients := ["vitamin_c_high_dose", "calcium", "magnesium"],
     recommended_nutrients := ["vitamin_d", "iron", "b_vitamins"],
     description := "Kidney disease patients should limit certain minerals",
     description_zh := "肾病患者应限制某些矿物质的摄入" })]

/-- `DRUG_INTERACTIONS` table. -/
def DRUG_INTERACTIONS : List DrugInteraction := [
  { drug := "warfarin", nutrient := "vitamin_k", severity := .high,
    description := "Vitamin K can reduce warfarin effectiveness",
    description_zh := "维生素K可能降低华法林的效果" },
  { drug := "warfarin", nutrient := "omega_3", severity := .medium,
    description := "Omega-3 may increase bleeding risk with warfarin",
    description_zh := "Omega-3与华法林同服可能增加出血风险" },
  { drug := "warfarin", nutrient := "vitamin_e", severity := .medium,
    description := "High-dose Vitamin E may increase bleeding risk",
    description_zh := "高剂量维生素E可能增加出血风险" },
  { drug := "aspirin", nutrient := "omega_3", severity := .medium,
    description := "Omega-3 may increase bleeding risk with aspirin",
    description_zh := "Omega-3与阿司匹林同服可能增加出血风险" },
  { drug := "aspirin", nutrient := "ginkgo", severity := .high,
    description := "Ginkgo may significantly increase bleeding risk with aspirin",
    description_zh := "银杏与阿司匹林同服可能显著增加出血风险" },
  { drug := "ace_inhibitor", nutrient := "potassium", severity := .high,
    description := "ACE inhibitors can increase potassium levels",
    description_zh := "ACE抑制剂可能增加钾水平，补钾需谨慎" },
  { drug := "calcium_channel_blocker", nutrient := "grapefruit", severity := .high,
    description := "Grapefruit can increase drug concentration",
    description_zh := "葡萄柚可能增加药物浓度" },
  { drug := "metformin", nutrient := "vitamin_b12", severity := .low,
    description := "Metformin may reduce B12 absorption, supplementation may be beneficial",
    description_zh := "二甲双胍可能降低B12吸收，补充可能有益" },
  { drug := "insulin", nutrient := "chromium", severity := .medium,
    description := "Chromium may affect blood sugar, monitor closely",
    description_zh := "铬可能影响血糖，需密切监测" },
  { drug := "levothyroxine", nutrient := "calcium", severity := .medium,
    description := "Calcium may reduce levothyroxine absorption, take separately",
    description_zh := "钙可能降低左甲状腺素吸收，需分开服用" },
  { drug := "levothyroxine", nutrient := "iron", severity := .medium,
    description := "Iron may reduce levothyroxine absorption, take separately",
    description_zh := "铁可能降低左甲状腺素吸收，需分开服用" },
  { drug := "tetracycline", nutrient := "calcium", severity := .high,
    description := "Calcium significantly reduces tetracycline absorption",
    description_zh := "钙显著降低四环素吸收" },
  { drug := "fluoroquinolone", nutrient := "magnesium", severity := .high,
    description := "Magnesium reduces fluoroquinolone absorption",
    description_zh := "镁降低氟喹诺酮类抗生素吸收" },
  { drug := "statin", nutrient := "coq10", severity := .low,
    description := "Statins may reduce CoQ10 levels, supplementation may be beneficial",
    description_zh := "他汀类药物可能降低辅酶Q10水平，补充可能有益" },
  { drug := "statin", nutrient := "red_yeast_rice", severity := .high,
    description := "Red yeast rice contains natural statins, may cause overdose",
    description_zh := "红曲米含有天然他汀，可能导致过量" }]

/-- `DRUG_ALIASES` table. -/
def DRUG_ALIASES : List (String × List String) := [
  ("warfarin", ["华法林", "warfarin", "coumadin", "香豆素"]),
  ("aspirin", ["阿司匹林", "aspirin", "拜阿司匹灵"]),
  ("ace_inhibitor", ["普利类", "依那普利", "卡托普利", "赖诺普利", "enalapril", "captopril", "lisinopril"]),
  ("calcium_channel_blocker", ["地平类", "氨氯地平", "硝苯地平", "amlodipine", "nifedipine"]),
  ("metformin", ["二甲双胍", "metformin", "格华止"]),
  ("insulin", ["胰岛素", "insulin"]),
  ("levothyroxine", ["左甲状腺素", "优甲乐", "levothyroxine", "synthroid"]),
  ("tetracycline", ["四环素", "tetracycline", "多西环素", "doxycycline"]),
  ("fluoroquinolone", ["氟喹诺酮", "左氧氟沙星", "莫西沙星", "levofloxacin", "moxifloxacin"]),
  ("statin", ["他汀", "阿托伐他汀", "瑞舒伐他汀", "辛伐他汀", "atorvastatin", "rosuvastatin", "simvastatin"])]

/-- `RuleEngine._normalize_drug_name`: the set of canonical drug keys a
medication string matches.  The source returns a Python set; only
membership is consumed downstream, so a list is used here. -/
def normalizeDrugName (medication : String) : List String :=
  let ml := medication.toLower.trim
  let direct := if (alistGet? DRUG_ALIASES ml).isSome then [ml] else []
  let byAlias := DRUG_ALIASES.filterMap (fun p =>
    if p.2.any (fun a => strIn a.toLower ml || strIn ml a.toLower)
    then some p.1 else none)
  direct ++ byAlias

/-- `RuleEngine._check_allergy_rules`. -/
def checkAllergyRules (nutrient : String) : List String → Option RuleResult
  | [] => none
  | allergy :: rest =>
    match alistGet? ALLERGY_RULES allergy.toLower with
    | none => checkAllergyRules nutrient rest
    | some rule =>
      if (rule.blocked_nutrients.map (·.toLower)).contains nutrient.toLower then
        some { nutrient := nutrient, action := .block,
               reason := some ("Blocked due to " ++ allergy ++ " allergy: " ++ rule.description),
               reason_zh := some ("因" ++ allergy ++ "过敏被阻挡：" ++ rule.description_zh),
               weight_modifier := 0,
               safety_info := { warnings := [rule.description_zh],
                                requires_professional_consult := true } }
      else if (rule.warning_nutrients.map (·.toLower)).contains nutrient.toLower then
        some { nutrient := nutrient, action := .warn,
               reason := some ("Warning due to " ++ allergy ++ " allergy: " ++ rule.description),
               reason_zh := some ("因" ++ allergy ++ "过敏需警告：" ++ rule.description_zh),
               weight_modifier := 1/2,
               safety_info := { warnings := [rule.description_zh],
                                requires_professional_consult := false } }
      else checkAllergyRules nutrient rest

/-- `RuleEngine._check_chronic_condition_rules`. -/
def checkChronicConditionRules (nutrient : String) : List String → Option RuleResult
  | [] => none
  | condition :: rest =>
    match alistGet? CHRONIC_CONDITION_RULES condition.toLower with
    | none => checkChronicConditionRules nutrient rest
    | some rule =>
      if (rule.blocked_nutrients.map (·.toLower)).contains nutrient.toLower then
        some { nutrient := nutrient, action := .block,
               reason := some ("Blocked due to " ++ condition ++ ": " ++ rule.description),
               reason_zh := some ("因" ++ condition ++ "被阻挡：" ++ rule.description_zh),
               weight_modifier := 0,
               safety_info := { warnings := [rule.description_zh],
                                requires_professional_consult := true } }
      else if (rule.warning_nutrients.map (·.toLower)).contains nutrient.toLower then
        some { nutrient := nutrient, action := .warn,
               reason := some ("Warning due to " ++ condition ++ ": " ++ rule.description),
               reason_zh := some ("因" ++ condition ++ "需警告：" ++ rule.description_zh),
               weight_modifier := 7/10,
               safety_info := { warnings := [rule.description_zh],
                                requires_professional_consult := true } }
      else checkChronicConditionRules nutrient rest

/-- The interactions matched inside `RuleEngine._check_drug_interactions`. -/
def matchedInteractions (nutrient : String) (medications : List String) :
    List DrugInteraction :=
  let normalized := medications.flatMap normalizeDrugName
  DRUG_INTERACTIONS.filter (fun i =>
    normalized.contains i.drug && i.nutrient.toLower = nutrient.toLower)

/-- The running maximum severity of `RuleEngine._check_drug_interactions`
(initialized to `LOW`, updated via `Severity.__gt__`). -/
def maxSeverity (l : List DrugInteraction) : Severity :=
  l.foldl (fun m i => if sevRank i.severity > sevRank m then i.severity else m) .low

/-- The tail of `RuleEngine._check_drug_interactions` after the matched
interactions are collected: branch on the maximum severity. -/
def drugRuleFromMatched (nutrient : String) (matched : List DrugInteraction) :
    Option RuleResult :=
  if matched.isEmpty then none
  else
    let warnings := matched.map (·.description_zh)
    match maxSeverity matched with
    | .critical =>
      some { nutrient := nutrient, action := .block,
             reason := some "Blocked due to critical drug interaction",
             reason_zh := some "因严重用药交互被阻挡",
             weight_modifier := 0,
             safety_info := { warnings := warnings,
                              requires_professional_consult := true,
                              interactions := matched } }
    | .high =>
      some { nutrient := nutrient, action := .warn,
             reason := some "High severity drug interaction warning",
             reason_zh := some "高风险用药交互警告",
             weight_modifier := 3/10,
             safety_info := { warnings := warnings,
                              requires_professional_consult := true,
                              interactions := matched } }
    | .medium =>
      some { nutrient := nutrient, action := .warn,
             reason := some "Medium severity drug interaction warning",
             reason_zh := some "中等风险用药交互警告",
             weight_modifier := 6/10,
             safety_info := { warnings := warnings,
                              requires_professional_consult := true,
                              interactions := matched } }
    | .low =>
      some { nutrient := nutrient, action := .allow,
             reason := some "Low severity drug interaction noted",
             reason_zh := some "低风险用药交互提示",
             weight_modifier := 9/10,
             safety_info := { warnings := warnings,
                              requires_professional_consult := false,
                              interactions := matched } }

/-- `RuleEngine._check_drug_interactions`. -/
def checkDrugInteractions (nutrient : String) (medications : List String) :
    Option RuleResult :=
  drugRuleFromMatched nutrient (matchedInteractions nutrient medications)

/-- `RuleEngine.check_nutrient`. -/
def checkNutrient (nutrient : String) (profile : HealthProfile) : SafetyCheck :=
  let allergyResult := checkAllergyRules nutrient profile.allergies
  let w1 := match allergyResult with
    | some r => r.safety_info.warnings
    | none => []
  let b1 : Option String := match allergyResult with
    | some r => if r.action = .block then r.reason_zh else none
    | none => none
  let conditionResult := checkChronicConditionRules nutrient profile.chronic_conditions
  let w2 := match conditionResult with
    | some r => r.safety_info.warnings
    | none => []
  let b2 : Option String := match conditionResult with
    | some r => if r.action = .block ∧ b1 = none then r.reason_zh else b1
    | none => b1
  let drugResult := checkDrugInteractions nutrient profile.medications
  let w3 := match drugResult with
    | some r => r.safety_info.warnings
    | none => []
  let b3 : Option String := match drugResult with
    | some r => if r.action = .block ∧ b2 = none then r.reason_zh else b2
    | none => b2
  { safe := b3.isNone, warnings := w1 ++ w2 ++ w3, blocked_by := b3 }

/-- The body of the `final_action` loop of `RuleEngine._merge_rule_results`
(breaks out on the first BLOCK). -/
def mergeActionLoop (acc : RuleAction) : List RuleResult → RuleAction
  | [] => acc
  | r :: rest =>
    if r.action = .block then .block
    else if r.action = .warn then mergeActionLoop .warn rest
    else mergeActionLoop acc rest

/-- `min(r.weight_modifier for r in all_results)` over a non-empty list. -/
def minWeight (r : RuleResult) (rest : List RuleResult) : ℚ :=
  rest.foldl (fun m x => min m x.weight_modifier) r.weight_modifier

/-- `RuleEngine._merge_rule_results`.  `base_score` is accepted and unused
exactly as in the source.  The source deduplicates warnings through
`list(set(...))`, whose order is unspecified; `List.dedup` is used, and no
claim depends on warning order. -/
def mergeRuleResults (nutrient : String) (base_score : ℚ)
    (allergy_result condition_result drug_result : Option RuleResult) : RuleResult :=
  let _ := base_score
  let all_results := [allergy_result, condition_result, drug_result].filterMap id
  match all_results with
  | [] =>
    { nutrient := nutrient, action := .allow,
      reason := some "No safety concerns", reason_zh := some "无安全顾虑",
      weight_modifier := 1, safety_info := {} }
  | r :: rest =>
    let final_action := mergeActionLoop .allow (r :: rest)
    let final_weight := minWeight r rest
    let all_warnings := (r :: rest).flatMap (·.safety_info.warnings)
    let all_interactions := (r :: rest).flatMap (·.safety_info.interactions)
    let requires_consult := (r :: rest).any (·.safety_info.requires_professional_consult)
    let reasons_zh := (r :: rest).filterMap (·.reason_zh)
    { nutrient := nutrient, action := final_action,
      reason := some (String.intercalate "; " ((r :: rest).filterMap (·.reason))),
      reason_zh := if reasons_zh.isEmpty then none
                   else some (String.intercalate "; " reasons_zh),
      weight_modifier := final_weight,
      safety_info := { warnings := all_warnings.dedup,
                       requires_professional_consult := requires_consult,
                       interactions := all_interactions } }

/-- The merged rule result for one candidate, as computed inside
`RuleEngine.apply_safety_rules`. -/
def mergedResult (profile : HealthProfile) (c : NutrientCandidate) : RuleResult :=
  mergeRuleResults c.nutrient c.base_score
    (checkAllergyRules c.nutrient profile.allergies)
    (checkChronicConditionRules c.nutrient profile.chronic_conditions)
    (checkDrugInteractions c.nutrient profile.medications)

/-- `RuleEngine.apply_safety_rules`. -/
def applySafetyRules (profile : HealthProfile) (candidates : List NutrientCandidate) :
    List RuleResult :=
  candidates.map (mergedResult profile)

/-- `RuleEngine.filter_and_rank_candidates`. -/
def filterAndRankCandidates (profile : HealthProfile)
    (candidates : List NutrientCandidate) : List NutrientCandidate :=
  let rule_results := applySafetyRules profile candidates
  let filtered := (candidates.zip rule_results).filterMap (fun p =>
    if p.2.action ≠ .block then
      some { nutrient := p.1.nutrient, base_score := p.1.base_score * p.2.weight_modifier }
    else none)
  sortLe (fun a b => decide (b.base_score ≤ a.base_score)) filtered

-- ===========================================================================
-- Scoring engine (`app/services/scoring_engine.py`)
-- ===========================================================================

/-- `NutrientScore` dataclass of `scoring_engine.py`. -/
structure NutrientScore where
  nutrient : String
  questionnaire_score : ℚ
  report_score : ℚ
  final_score : ℚ
  reasons : List String
deriving DecidableEq, Repr

/-- `QuestionnaireScorer.GOAL_NUTRIENT_MAPPING`. -/
def GOAL_NUTRIENT_MAPPING : List (String × List (String × ℚ)) := [
  ("weight_loss",
   [("probiotics", 25), ("protein_powder", 30), ("vitamin_b_complex", 20),
    ("green_tea_extract", 25)]),
  ("muscle_gain",
   [("protein_powder", 35), ("vitamin_b_complex", 20), ("magnesium", 20),
    ("calcium", 15), ("zinc", 10)]),
  ("energy",
   [("vitamin_b_complex", 30), ("iron", 25), ("coq10", 20), ("vitamin_d", 15),
    ("magnesium", 10)]),
  ("immunity",
   [("vitamin_c", 25), ("vitamin_d", 25), ("zinc", 20), ("probiotics", 20),
    ("omega_3", 10)]),
  ("skin_health",
   [("collagen", 30), ("vitamin_c", 25), ("vitamin_e", 20), ("zinc", 15),
    ("omega_3", 10)]),
  ("bone_health",
   [("calcium", 30), ("vitamin_d", 30), ("magnesium", 20), ("vitamin_k", 20)]),
  ("heart_health",
   [("omega_3", 35), ("coq10", 25), ("magnesium", 20), ("vitamin_d", 20)]),
  ("brain_health",
   [("omega_3", 30), ("vitamin_b_complex", 25), ("vitamin_d", 20),
    ("magnesium", 15), ("ginkgo", 10)]),
  ("sleep",
   [("magnesium", 35), ("melatonin", 30), ("vitamin_d", 20), ("calcium", 15)])]

/-- `QuestionnaireScorer.DIETARY_PREFERENCE_MODIFIERS`. -/
def DIETARY_PREFERENCE_MODIFIERS : List (String × List (String × ℚ)) := [
  ("vegetarian",
   [("iron", 15), ("vitamin_b12", 15), ("zinc", 10), ("omega_3", 10)]),
  ("vegan",
   [("vitamin_b12", 20), ("iron", 15), ("calcium", 15), ("vitamin_d", 15),
    ("zinc", 10), ("omega_3", 10)]),
  ("keto",
   [("magnesium", 15), ("sodium", 10), ("potassium", 10), ("vitamin_b_complex", 10)]),
  ("paleo",
   [("vitamin_d", 10), ("omega_3", 10), ("magnesium", 10)])]

/-- Per-metric nutrient weights for low/high flags. -/
structure MetricMapping where
  low : List (String × ℚ) := []
  high : List (String × ℚ) := []
deriving DecidableEq, Repr

/-- `ReportScorer.METRIC_NUTRIENT_MAPPING`. -/
def METRIC_NUTRIENT_MAPPING : List (String × MetricMapping) := [
  ("hemoglobin",
   { low := [("iron", 35), ("vitamin_b12", 25), ("folic_acid", 20), ("vitamin_c", 10)] }),
  ("ferritin", { low := [("iron", 40), ("vitamin_c", 15)] }),
  ("vitamin_d", { low := [("vitamin_d", 50)] }),
  ("vitamin_b12", { low := [("vitamin_b12", 50), ("folic_acid", 15)] }),
  ("folic_acid", { low := [("folic_acid", 50), ("vitamin_b12", 15)] }),
  ("fasting_glucose",
   { low := [("chromium", 20), ("vitamin_b_complex", 15)],
     high := [("chromium", 25), ("magnesium", 20), ("vitamin_d", 15), ("omega_3", 15)] }),
  ("hba1c",
   { high := [("chromium", 25), ("magnesium", 20), ("vitamin_d", 15), ("omega_3", 15)] }),
  ("total_cholesterol",
   { high := [("omega_3", 30), ("coq10", 20), ("niacin", 15), ("fiber", 15)] }),
  ("ldl", { high := [("omega_3", 35), ("coq10", 20), ("niacin", 15)] }),
  ("hdl", { low := [("omega_3", 30), ("niacin", 20), ("vitamin_d", 15)] }),
  ("triglycerides", { high := [("omega_3", 40), ("niacin", 20), ("fiber", 15)] }),
  ("alt", { high := [("milk_thistle", 30), ("vitamin_e", 20), ("omega_3", 15)] }),
  ("ast", { high := [("milk_thistle", 30), ("vitamin_e", 20), ("omega_3", 15)] }),
  ("creatinine", { high := [("omega_3", 20), ("coq10", 15)] }),
  ("uric_acid", { high := [("vitamin_c", 25), ("cherry_extract", 20), ("quercetin", 15)] }),
  ("tsh",
   { low := [("selenium", 20), ("zinc", 15)],
     high := [("selenium", 25), ("zinc", 20), ("vitamin_d", 15), ("iodine", 15)] })]

/-- `ReportScorer.REFERENCE_RANGES` (low bound, high bound; units dropped). -/
def REFERENCE_RANGES : List (String × (ℚ × ℚ)) := [
  ("hemoglobin", (12, 17)),
  ("ferritin", (30, 300)),
  ("vitamin_d", (30, 100)),
  ("vitamin_b12", (200, 900)),
  ("folic_acid", (3, 17)),
  ("fasting_glucose", (70, 100)),
  ("hba1c", (4, 57/10)),
  ("total_cholesterol", (125, 200)),
  ("ldl", (0, 100)),
  ("hdl", (40, 200)),
  ("triglycerides", (0, 150)),
  ("alt", (0, 40)),
  ("ast", (0, 40)),
  ("creatinine", (6/10, 12/10)),
  ("uric_acid", (7/2, 36/5)),
  ("tsh", (4/10, 4))]

/-- Scores dict and reasons dict carried through a scorer run. -/
abbrev ScoreState := List (String × ℚ) × List (String × List String)

/-- One `nutrient, score` inner loop of the scorers: add each table weight and
append the given reason string. -/
def applyEntries (st : ScoreState) (entries : List (String × ℚ)) (reason : String) :
    ScoreState :=
  entries.foldl (fun st e => (dictAdd st.1 e.1 e.2, dictAddReason st.2 e.1 reason)) st

/-- `max(nutrient_scores.values())` over a non-empty dict (0 for the empty
dict, where the source never evaluates it). -/
def maxScoreVal : List (String × ℚ) → ℚ
  | [] => 0
  | p :: rest => rest.foldl (fun m q => max m q.2) p.2

/-- The shared normalization step: if the dict is non-empty and its max is
positive, rescale every value to `min(100, v / max * 100)`. -/
def normalizeScores (l : List (String × ℚ)) : List (String × ℚ) :=
  if l.isEmpty then l
  else
    let m := maxScoreVal l
    if 0 < m then l.map (fun p => (p.1, min 100 (p.2 / m * 100))) else l

/-- `QuestionnaireScorer.calculate_scores`; `budget_max` is accepted and
unused, as in the source.  Returns the `nutrient -> NutrientScore` dict as a
list in dict insertion order. -/
def questionnaireCalculateScores (goals dietary_preferences : List String)
    (budget_max : Option ℚ := none) : List NutrientScore :=
  let _ := budget_max
  let st : ScoreState := goals.foldl (fun st g =>
    match alistGet? GOAL_NUTRIENT_MAPPING g with
    | some m => applyEntries st m ("符合您的健康目标：" ++ g)
    | none => st) ([], [])
  let st : ScoreState := dietary_preferences.foldl (fun st p =>
    if p = "no_preference" then st
    else match alistGet? DIETARY_PREFERENCE_MODIFIERS p with
      | some m => applyEntries st m ("适合您的饮食偏好：" ++ p)
      | none => st) st
  (normalizeScores st.1).map (fun p =>
    { nutrient := p.1, questionnaire_score := p.2, report_score := 0,
      final_score := p.2, reasons := (alistGet? st.2 p.1).getD [] })

/-- Rendering of a metric value into the reason string (the source
interpolates the raw Python value; only reason counts matter to any claim). -/
def labValueStr : Option ℚ → String
  | some q => toString q
  | none => "None"

/-- The resolved low/high/normal flag of one lab metric
(`ReportScorer.calculate_scores`, flag-resolution step). -/
def resolveFlag (metricName : String) (value : Option ℚ) (flag : String) : String :=
  if flag = "normal" then
    match alistGet? REFERENCE_RANGES metricName, value with
    | some r, some v => if v < r.1 then "low" else if v > r.2 then "high" else flag
    | _, _ => flag
  else flag

/-- One iteration of the metric loop of `ReportScorer.calculate_scores`. -/
def reportStep (st : ScoreState) (m : LabMetric) : ScoreState :=
  let metricName := (m.name.getD "").toLower
  let value := m.value
  let flag0 := (m.flag.getD "normal").toLower
  match alistGet? METRIC_NUTRIENT_MAPPING metricName with
  | none => st
  | some mapping =>
    let flag := resolveFlag metricName value flag0
    if flag = "low" ∨ flag = "high" then
      let entries := if flag = "low" then mapping.low else mapping.high
      applyEntries st entries
        ("您的 " ++ metricName ++ " 指标 " ++ flag ++ "（" ++ labValueStr value ++ "），建议补充")
    else st

/-- `ReportScorer.calculate_scores`. -/
def reportCalculateScores (lab_metrics : List LabMetric) : List NutrientScore :=
  let st : ScoreState := lab_metrics.foldl reportStep ([], [])
  (normalizeScores st.1).map (fun p =>
    { nutrient := p.1, questionnaire_score := 0, report_score := p.2,
      final_score := p.2, reasons := (alistGet? st.2 p.1).getD [] })

/-- `HybridScoringEngine.REPORT_WEIGHT`. -/
def REPORT_WEIGHT : ℚ := 7/10

/-- `HybridScoringEngine.QUESTIONNAIRE_WEIGHT`. -/
def QUESTIONNAIRE_WEIGHT : ℚ := 3/10

/-- Python truthiness of the optional `lab_metrics` argument
(`if lab_metrics:`): present and non-empty. -/
def labTruthy : Option (List LabMetric) → Bool
  | none => false
  | some l => !l.isEmpty

/-- `HybridScoringEngine.calculate_hybrid_scores`.  The source iterates a
Python set union of the two key sets, whose order is unspecified; here the
questionnaire keys are followed by the new report keys (every claim proved
below is order-insensitive). -/
def calculateHybridScores (goals dietary_preferences : List String)
    (lab_metrics : Option (List LabMetric) := none) (budget_max : Option ℚ := none) :
    List NutrientScore :=
  let qs := questionnaireCalculateScores goals dietary_preferences budget_max
  let rs := if labTruthy lab_metrics then reportCalculateScores (lab_metrics.getD []) else []
  let allNutrients := qs.map (·.nutrient) ++
    (rs.map (·.nutrient)).filter (fun n => !(qs.any (·.nutrient = n)))
  let hybrid := allNutrients.map (fun n =>
    let qo := qs.find? (·.nutrient = n)
    let ro := rs.find? (·.nutrient = n)
    let q := match qo with | some s => s.questionnaire_score | none => 0
    let r := match ro with | some s => s.report_score | none => 0
    let fin := if labTruthy lab_metrics then r * REPORT_WEIGHT + q * QUESTIONNAIRE_WEIGHT
               else q
    let reasons := (match qo with | some s => s.reasons | none => []) ++
                   (match ro with | some s => s.reasons | none => [])
    { nutrient := n, questionnaire_score := q, report_score := r,
      final_score := fin, reasons := reasons })
  sortLe (fun a b => decide (b.final_score ≤ a.final_score)) hybrid

/-- `HybridScoringEngine.get_top_n`. -/
def getTopN (goals dietary_preferences : List String)
    (lab_metrics : Option (List LabMetric) := none) (budget_max : Option ℚ := none)
    (n : Nat := 5) : List NutrientScore :=
  (calculateHybridScores goals dietary_preferences lab_metrics budget_max).take n

-- ===========================================================================
-- Recommendation engine (`app/services/recommendation.py`)
-- ===========================================================================

/-- `LocalizedString` model. -/
structure LocalizedString where
  zh_tw : String
  en : String
deriving DecidableEq, Repr

/-- `DrugInteractionInfo` model of `recommendation.py`. -/
structure DrugInteractionInfo where
  drug : String
  nutrient : String
  severity : String
  description : String
deriving DecidableEq, Repr

/-- `SafetyInfo` model of `recommendation.py` (distinct from the rule
engine's dataclass of the same name). -/
structure RecSafetyInfo where
  warnings : List String := []
  requires_professional_consult : Bool := false
  interactions : List DrugInteractionInfo := []
deriving DecidableEq, Repr

/-- `CommerceSlot` model. -/
structure CommerceSlot where
  type : String
  product_id : Option String := none
  offer_id : Option String := none
deriving DecidableEq, Repr

/-- `RecommendationItem` model (pydantic).  Field validators are not baked
into the structure; the paths modelled below construct only values that the
validators accept, which is proved rather than assumed. -/
structure RecommendationItem where
  rank : Nat
  rec_key : String
  name : LocalizedString
  why : List String
  safety : RecSafetyInfo
  confidence : ℤ
  commerce_slot : CommerceSlot
deriving DecidableEq, Repr

/-- `RecommendationResult` model (without the `generated_at` timestamp).
Its pydantic validator rejecting item lists of length other than 5 is
modelled in `generate` below. -/
structure RecommendationResult where
  session_id : String
  items : List RecommendationItem
  disclaimer : String
  requires_review : Bool
deriving DecidableEq, Repr

/-- `HealthProfile` dataclass of `recommendation.py`. -/
structure RecHealthProfile where
  user_id : String
  allergies : List String := []
  chronic_conditions : List String := []
  medications : List String := []
  goals : List String := []
  dietary_preferences : List String := []
  budget_min : Option ℚ := none
  budget_max : Option ℚ := none
  lab_metrics : Option (List LabMetric) := none
deriving DecidableEq, Repr

/-- `DISCLAIMER_ZH` (content abbreviated to its first line; only
non-emptiness could ever matter and no claim consumes the text). -/
def DISCLAIMER_ZH : String :=
  "【健康免责声明】本平台提供的营养建议仅供参考，不构成医疗诊断或治疗建议。"

/-- Per-nutrient entry of `NUTRIENT_DATABASE`. -/
structure NutrientInfo where
  name : LocalizedString
  benefits : List String
  goals : List String
deriving DecidableEq, Repr

/-- `NUTRIENT_DATABASE` of `recommendation.py`. -/
def NUTRIENT_DATABASE : List (String × NutrientInfo) := [
  ("vitamin_d",
   { name := { zh_tw := "维生素D", en := "Vitamin D" },
     benefits := ["骨骼健康", "免疫支持", "情绪调节"],
     goals := ["immunity", "bone_health", "energy"] }),
  ("omega_3",
   { name := { zh_tw := "Omega-3 鱼油", en := "Omega-3 Fish Oil" },
     benefits := ["心血管健康", "大脑功能", "抗炎"],
     goals := ["heart_health", "brain_health", "immunity"] }),
  ("vitamin_c",
   { name := { zh_tw := "维生素C", en := "Vitamin C" },
     benefits := ["免疫支持", "抗氧化", "皮肤健康"],
     goals := ["immunity", "skin_health", "energy"] }),
  ("vitamin_b_complex",
   { name := { zh_tw := "维生素B群", en := "Vitamin B Complex" },
     benefits := ["能量代谢", "神经系统", "红血球生成"],
     goals := ["energy", "muscle_gain", "brain_health"] }),
  ("magnesium",
   { name := { zh_tw := "镁", en := "Magnesium" },
     benefits := ["肌肉放松", "睡眠质量", "心脏健康"],
     goals := ["sleep", "muscle_gain", "heart_health"] }),
  ("zinc",
   { name := { zh_tw := "锌", en := "Zinc" },
     benefits := ["免疫功能", "伤口愈合", "皮肤健康"],
     goals := ["immunity", "skin_health", "muscle_gain"] }),
  ("probiotics",
   { name := { zh_tw := "益生菌", en := "Probiotics" },
     benefits := ["肠道健康", "免疫支持", "消化功能"],
     goals := ["immunity", "weight_loss", "energy"] }),
  ("collagen",
   { name := { zh_tw := "胶原蛋白", en := "Collagen" },
     benefits := ["皮肤弹性", "关节健康", "头发指甲"],
     goals := ["skin_health", "bone_health"] }),
  ("coq10",
   { name := { zh_tw := "辅酶Q10", en := "CoQ10" },
     benefits := ["心脏健康", "能量产生", "抗氧化"],
     goals := ["heart_health", "energy"] }),
  ("iron",
   { name := { zh_tw := "铁", en := "Iron" },
     benefits := ["血红蛋白生成", "能量水平", "认知功能"],
     goals := ["energy", "immunity"] }),
  ("calcium",
   { name := { zh_tw := "钙", en := "Calcium" },
     benefits := ["骨骼健康", "肌肉功能", "神经传导"],
     goals := ["bone_health", "muscle_gain"] }),
  ("vitamin_e",
   { name := { zh_tw := "维生素E", en := "Vitamin E" },
     benefits := ["抗氧化", "皮肤健康", "免疫支持"],
     goals := ["skin_health", "immunity"] }),
  ("turmeric",
   { name := { zh_tw := "姜黄素", en := "Turmeric/Curcumin" },
     benefits := ["抗炎", "关节健康", "抗氧化"],
     goals := ["immunity", "bone_health"] }),
  ("melatonin",
   { name := { zh_tw := "褪黑素", en := "Melatonin" },
     benefits := ["睡眠调节", "抗氧化", "免疫支持"],
     goals := ["sleep", "immunity"] }),
  ("protein_powder",
   { name := { zh_tw := "蛋白粉", en := "Protein Powder" },
     benefits := ["肌肉生长", "饱腹感", "运动恢复"],
     goals := ["muscle_gain", "weight_loss"] })]

/-- `RecommendationEngine._build_health_profile_for_rules`. -/
def toRuleProfile (profile : RecHealthProfile) : HealthProfile :=
  { allergies := profile.allergies,
    chronic_conditions := profile.chronic_conditions,
    medications := profile.medications,
    goals := profile.goals,
    dietary_preferences := profile.dietary_preferences,
    lab_metrics := profile.lab_metrics }

/-- `RecommendationEngine._calculate_base_score`: 50 plus 20 per distinct
goal shared with the nutrient entry, capped at 100
(`len(set(profile.goals) & set(nutrient_goals))`). -/
def calculateBaseScore (rec_key : String) (profile : RecHealthProfile) : ℚ :=
  match alistGet? NUTRIENT_DATABASE rec_key with
  | none => 0
  | some info =>
    let matching := (profile.goals.dedup.filter (fun g => info.goals.contains g)).length
    min 100 (50 + 20 * (matching : ℚ))

/-- `RecommendationEngine._get_available_nutrients`. -/
def getAvailableNutrients (profile : RecHealthProfile) : List NutrientCandidate :=
  filterAndRankCandidates (toRuleProfile profile)
    (NUTRIENT_DATABASE.map (fun p =>
      { nutrient := p.1, base_score := calculateBaseScore p.1 profile }))

/-- The name shown for a nutrient key (`NUTRIENT_DATABASE` lookup with the
key itself as fallback). -/
def nutrientDisplayName (rec_key : String) : LocalizedString :=
  match alistGet? NUTRIENT_DATABASE rec_key with
  | some info => info.name
  | none => { zh_tw := rec_key, en := rec_key }

/-- The safety block every recommendation path constructs from a
`SafetyCheck`: professional consult required iff any warning, and an empty
interactions list. -/
def mkRecSafety (sc : SafetyCheck) : RecSafetyInfo :=
  { warnings := sc.warnings,
    requires_professional_consult := decide (0 < sc.warnings.length),
    interactions := [] }

/-- The generic filler reasons of `_generate_fallback_recommendations`. -/
def FALLBACK_FILLERS : List String :=
  ["根据您的健康目标推荐", "有助于整体健康", "适合您的饮食习惯"]

/-- The `nutrient_db` top-up loop of `_generate_fallback_recommendations`:
append keys absent from `existing` until at least 5 candidates. -/
def fillFromDb (existing : List String) (acc : List NutrientCandidate) :
    List String → List NutrientCandidate
  | [] => acc
  | k :: rest =>
    let acc' := if existing.contains k then acc else acc ++ [{ nutrient := k, base_score := 50 }]
    if acc'.length ≥ 5 then acc' else fillFromDb existing acc' rest

/-- `RecommendationEngine._generate_fallback_recommendations`. -/
def generateFallbackRecommendations (profile : RecHealthProfile)
    (candidates : List NutrientCandidate) : List RecommendationItem :=
  let top := candidates.take 5
  let top := if top.length < 5 then
      fillFromDb (top.map (·.nutrient)) top (NUTRIENT_DATABASE.map (·.1))
    else top
  (top.take 5).enum.map (fun p =>
    let rec_key := p.2.nutrient
    let benefits := match alistGet? NUTRIENT_DATABASE rec_key with
      | some info => info.benefits
      | none => []
    let why0 := (benefits.take 3).map (fun b => "有助于" ++ b)
    let why := if why0.length < 3 then why0 ++ FALLBACK_FILLERS.take (3 - why0.length)
               else why0
    let sc := checkNutrient rec_key (toRuleProfile profile)
    { rank := p.1 + 1,
      rec_key := rec_key,
      name := nutrientDisplayName rec_key,
      why := why.take 5,
      safety := mkRecSafety sc,
      confidence := pyInt p.2.base_score,
      commerce_slot := { type := "none" } })

/-- `RecommendationEngine._generate_personalized_why` on the deterministic
`api_key = None` path (also the body of every LLM-failure fallback): the
first 3 base reasons, padded to exactly 3 with a generic filler. -/
def personalizedWhyNoApi (base_reasons : List String) : List String :=
  if base_reasons.length ≥ 3 then base_reasons.take 3
  else base_reasons ++ List.replicate (3 - base_reasons.length) "有助于整体健康"

/-- Step 2 of `RecommendationEngine.generate`: keep the nutrients whose
safety check is safe or carries warnings (the source's filter). -/
def generateFiltered (profile : RecHealthProfile) (top : List NutrientScore) :
    List (NutrientScore × SafetyCheck) :=
  top.filterMap (fun ns =>
    let sc := checkNutrient ns.nutrient (toRuleProfile profile)
    if sc.safe || !sc.warnings.isEmpty then some (ns, sc) else none)

/-- Step 4 of `RecommendationEngine.generate`: backfill from the remaining
top-10 candidates, skipping those with a `blocked_by` reason. -/
def generateBackfill (profile : RecHealthProfile)
    (acc : List (NutrientScore × SafetyCheck)) :
    List NutrientScore → List (NutrientScore × SafetyCheck)
  | [] => acc
  | ns :: rest =>
    if acc.length ≥ 5 then acc
    else
      let sc := checkNutrient ns.nutrient (toRuleProfile profile)
      if sc.blocked_by = none then generateBackfill profile (acc ++ [(ns, sc)]) rest
      else generateBackfill profile acc rest

/-- Steps 1-4 of `RecommendationEngine.generate`: the (score, safety-check)
pairs the 5 recommendation items are built from. -/
def generateTop5 (profile : RecHealthProfile) : List (NutrientScore × SafetyCheck) :=
  let top := getTopN profile.goals profile.dietary_preferences profile.lab_metrics
    profile.budget_max 10
  let top5 := (generateFiltered profile top).take 5
  if top5.length < 5 then
    let remaining := top.filter (fun n => !(top5.any (fun t => t.1.nutrient = n.nutrient)))
    generateBackfill profile top5 remaining
  else top5

/-- Step 5 of `RecommendationEngine.generate`: one recommendation item. -/
def mkHybridItem (i : Nat) (p : NutrientScore × SafetyCheck) : RecommendationItem :=
  { rank := i + 1,
    rec_key := p.1.nutrient,
    name := nutrientDisplayName p.1.nutrient,
    why := personalizedWhyNoApi (p.1.reasons.take 5),
    safety := mkRecSafety p.2,
    confidence := pyInt (min 100 (max 0 p.1.final_score)),
    commerce_slot := { type := "none" } }

/-- The item list built by `RecommendationEngine.generate` (hybrid path,
deterministic `api_key = None` mode), including the final stable re-sort by
rank and rank reassignment. -/
def generateRecs (profile : RecHealthProfile) : List RecommendationItem :=
  let recs := (generateTop5 profile).enum.map (fun p => mkHybridItem p.1 p.2)
  let sorted := sortLe (fun a b => decide (a.rank ≤ b.rank)) recs
  sorted.enum.map (fun p => { p.2 with rank := p.1 + 1 })

/-- The `requires_review` flag of `generate`/`generate_sync`. -/
def requiresReview (profile : RecHealthProfile) (recs : List RecommendationItem) : Bool :=
  decide (2 < profile.medications.length) || decide (1 < profile.chronic_conditions.length) ||
    recs.any (·.safety.requires_professional_consult)

/-- `RecommendationEngine.generate` (deterministic `api_key = None` mode):
builds the items and applies the `RecommendationResult` pydantic validator,
which raises a `ValueError` unless exactly 5 items were built. -/
def generate (session_id : String) (profile : RecHealthProfile) :
    Except String RecommendationResult :=
  let recs := generateRecs profile
  if recs.length = 5 then
    .ok { session_id := session_id, items := recs, disclaimer := DISCLAIMER_ZH,
          requires_review := requiresReview profile recs }
  else
    .error ("Must have exactly 5 recommendations, got " ++ toString recs.length)

/-- The item list built by `RecommendationEngine.generate_sync`: top 5 of
the filtered list, reasons taken directly (padded to at least 3). -/
def generateSyncRecs (profile : RecHealthProfile) : List RecommendationItem :=
  let top := getTopN profile.goals profile.dietary_preferences profile.lab_metrics
    profile.budget_max 10
  ((generateFiltered profile top).take 5).enum.map (fun p =>
    let ns := p.2.1
    let sc := p.2.2
    let why0 := ns.reasons.take 5
    let why := if why0.length < 3 then
        why0 ++ ["根据您的健康档案推荐", "有助于整体健康", "适合您的需求"].take (3 - why0.length)
      else why0
    { rank := p.1 + 1,
      rec_key := ns.nutrient,
      name := nutrientDisplayName ns.nutrient,
      why := why,
      safety := mkRecSafety sc,
      confidence := pyInt (min 100 (max 0 ns.final_score)),
      commerce_slot := { type := "none" } })

/-- `RecommendationEngine.generate_sync`, with the same result validator. -/
def generateSync (session_id : String) (profile : RecHealthProfile) :
    Except String RecommendationResult :=
  let recs := generateSyncRecs profile
  if recs.length = 5 then
    .ok { session_id := session_id, items := recs, disclaimer := DISCLAIMER_ZH,
          requires_review := requiresReview profile recs }
  else
    .error ("Must have exactly 5 recommendations, got " ++ toString recs.length)

-- ===========================================================================
-- Config service (`app/services/config.py`)
-- ===========================================================================

/-- `ConfigType` enum. -/
inductive CfgType where
  | ruleset
  | weights
  | prompts
  | modelConfig
  | featureFlags
deriving DecidableEq, Repr

/-- `ConfigStatus` enum. -/
inductive CfgStatus where
  | draft
  | approved
  | deploying
  | active
  | rolledBack
deriving DecidableEq, Repr

/-- `AuditAction` enum. -/
inductive CfgAuditAction where
  | create
  | update
  | approve
  | deploy
  | activate
  | rollback
deriving DecidableEq, Repr

/-- `VALID_TRANSITIONS` table. -/
def VALID_TRANSITIONS : CfgStatus → List CfgStatus
  | .draft => [.approved]
  | .approved => [.deploying]
  | .deploying => [.active]
  | .active => [.rolledBack]
  | .rolledBack => []

/-- `ConfigService._validate_transition`. -/
def validateTransition (current target : CfgStatus) : Bool :=
  (VALID_TRANSITIONS current).contains target

/-- A `ConfigVersion` row (id as `Nat` standing for the DB uuid; `content`,
`created_by`, `created_at` and `change_reason` carry no claim and are
dropped). -/
structure Cfg where
  id : Nat
  config_type : CfgType
  version : Nat
  status : CfgStatus
  rollout_percent : ℤ
deriving DecidableEq, Repr

/-- An `AuditLog` row (status before/after; `CREATE` rows carry content
rather than statuses and store `none`s here). -/
structure AuditRow where
  config_version_id : Nat
  action : CfgAuditAction
  before_status : Option CfgStatus
  after_status : Option CfgStatus
deriving DecidableEq, Repr

/-- The backing store visible to `ConfigService`: the `config_versions` and
`audit_logs` tables. -/
structure CfgState where
  versions : List Cfg
  logs : List AuditRow
deriving DecidableEq, Repr

/-- The errors `ConfigService` raises. -/
inductive CfgError where
  | notFound
  | invalidTransition (current target : CfgStatus)
  | noPreviousActive
deriving DecidableEq, Repr

/-- `ConfigService.get_config_by_id` (primary-key lookup). -/
def getConfigById (st : CfgState) (vid : Nat) : Option Cfg :=
  st.versions.find? (fun c => c.id = vid)

/-- `SELECT ... ORDER BY version DESC LIMIT 1` over a row list (ties in
`version` cannot arise between rows of one `config_type`, which is the only
use). -/
def maxByVersion : List Cfg → Option Cfg
  | [] => none
  | c :: rest => some (rest.foldl (fun best x => if x.version > best.version then x else best) c)

/-- `ConfigService.get_active_config`. -/
def getActiveConfig (st : CfgState) (t : CfgType) : Option Cfg :=
  maxByVersion (st.versions.filter (fun c => c.config_type = t ∧ c.status = .active))

/-- `ConfigService.get_latest_version_number`. -/
def getLatestVersionNumber (st : CfgState) (t : CfgType) : Nat :=
  (st.versions.filter (fun c => c.config_type = t)).foldl (fun m c => max m c.version) 0

/-- `ConfigService.create_draft` (the fresh row id, generated by the DB, is
passed in). -/
def createDraft (st : CfgState) (t : CfgType) (newId : Nat) :
    Except CfgError Cfg × CfgState :=
  let cfg : Cfg := { id := newId, config_type := t,
                     version := getLatestVersionNumber st t + 1,
                     status := .draft, rollout_percent := 0 }
  (.ok cfg,
   { versions := st.versions ++ [cfg],
     logs := st.logs ++ [{ config_version_id := newId, action := .create,
                           before_status := none, after_status := none }] })

/-- `ConfigService.approve_config`. -/
def approveConfig (st : CfgState) (vid : Nat) : Except CfgError Cfg × CfgState :=
  match getConfigById st vid with
  | none => (.error .notFound, st)
  | some cfg =>
    if validateTransition cfg.status .approved then
      ((.ok { cfg with status := .approved }),
       { versions := st.versions.map (fun c =>
           if c.id = vid then { c with status := .approved } else c),
         logs := st.logs ++ [{ config_version_id := cfg.id, action := .approve,
                               before_status := some cfg.status,
                               after_status := some .approved }] })
    else (.error (.invalidTransition cfg.status .approved), st)

/-- `ConfigService.deploy_config` (rollout percent clamped to [0, 100]). -/
def deployConfig (st : CfgState) (vid : Nat) (rollout_percent : ℤ) :
    Except CfgError Cfg × CfgState :=
  match getConfigById st vid with
  | none => (.error .notFound, st)
  | some cfg =>
    if validateTransition cfg.status .deploying then
      let pct := max 0 (min 100 rollout_percent)
      ((.ok { cfg with status := .deploying, rollout_percent := pct }),
       { versions := st.versions.map (fun c =>
           if c.id = vid then { c with status := .deploying, rollout_percent := pct } else c),
         logs := st.logs ++ [{ config_version_id := cfg.id, action := .deploy,
                               before_status := some cfg.status,
                               after_status := some .deploying }] })
    else (.error (.invalidTransition cfg.status .deploying), st)

/-- `ConfigService.activate_config`: promote the version, demote every other
ACTIVE version of the same config type (one audit row each). -/
def activateConfig (st : CfgState) (vid : Nat) : Except CfgError Cfg × CfgState :=
  match getConfigById st vid with
  | none => (.error .notFound, st)
  | some cfg =>
    if validateTransition cfg.status .active then
      let olds := st.versions.filter (fun c =>
        c.config_type = cfg.config_type ∧ c.status = .active ∧ c.id ≠ cfg.id)
      ((.ok { cfg with status := .active, rollout_percent := 100 }),
       { versions := st.versions.map (fun c =>
           if c.config_type = cfg.config_type ∧ c.status = .active ∧ c.id ≠ cfg.id then
             { c with status := .rolledBack }
           else if c.id = vid then { c with status := .active, rollout_percent := 100 }
           else c),
         logs := st.logs ++
           olds.map (fun o => { config_version_id := o.id, action := .rollback,
                                before_status := some .active,
                                after_status := some .rolledBack }) ++
           [{ config_version_id := cfg.id, action := .activate,
              before_status := some cfg.status, after_status := some .active }] })
    else (.error (.invalidTransition cfg.status .active), st)

/-- The most recent ROLLED_BACK version of a config type, as queried by
`rollback_config`. -/
def latestRolledBack (st : CfgState) (t : CfgType) : Option Cfg :=
  maxByVersion (st.versions.filter (fun c => c.config_type = t ∧ c.status = .rolledBack))

/-- `ConfigService.rollback_config`: re-activate the latest ROLLED_BACK
version of the type, demoting the current ACTIVE one if any; a distinct
error (and no writes) when no ROLLED_BACK version exists. -/
def rollbackConfig (st : CfgState) (t : CfgType) : Except CfgError Cfg × CfgState :=
  let current := getActiveConfig st t
  match latestRolledBack st t with
  | none => (.error .noPreviousActive, st)
  | some prev =>
    ((.ok { prev with status := .active, rollout_percent := 100 }),
     { versions := st.versions.map (fun c =>
         if current.any (fun cur => c.id = cur.id) then
           { c with status := .rolledBack }
         else if c.id = prev.id then { c with status := .active, rollout_percent := 100 }
         else c),
       logs := st.logs ++
         (match current with
          | some cur => [{ config_version_id := cur.id, action := .rollback,
                           before_status := some .active,
                           after_status := some .rolledBack }]
          | none => []) ++
         [{ config_version_id := prev.id, action := .activate,
            before_status := some .rolledBack, after_status := some .active }] })

/-- `ConfigService.should_apply_config`.  `h` stands for Python's per-process
string `hash`, applied to `str(user_id)`; `%` on `ℤ` agrees with Python `%`
(sign of the divisor). -/
def shouldApplyConfig (h : String → ℤ) (config : Cfg) (user_id : String) : Bool :=
  if config.rollout_percent ≥ 100 then true
  else if config.rollout_percent ≤ 0 then false
  else h user_id % 100 < config.rollout_percent

-- ===========================================================================
-- Claim-support definitions
-- ===========================================================================

/-- The action/weight pair the claim (and §4.4 of the spec) assigns to each
maximum severity: CRITICAL blocks at 0.0, HIGH warns at 0.3, MEDIUM warns at
0.6, LOW allows at 0.9. -/
def severityActionWeight : Severity → RuleAction × ℚ
  | .critical => (.block, 0)
  | .high => (.warn, 3/10)
  | .medium => (.warn, 6/10)
  | .low => (.allow, 9/10)

/-- Drug-name normalization exactly as the claim for the drug-interaction
check words it: a case-insensitive bidirectional substring match against the
static alias table (and nothing else).  Refinement comparison definition:
it follows the claim's words, not the source, and is compared against
`normalizeDrugName`. -/
def specNormalizeDrugName (medication : String) : List String :=
  let ml := medication.toLower.trim
  DRUG_ALIASES.filterMap (fun p =>
    if p.2.any (fun a => strIn a.toLower ml || strIn ml a.toLower) then some p.1 else none)

/-- The matched interactions under the claim's normalization (refinement
comparison definition). -/
def specMatchedInteractions (nutrient : String) (medications : List String) :
    List DrugInteraction :=
  let normalized := medications.flatMap specNormalizeDrugName
  DRUG_INTERACTIONS.filter (fun i =>
    normalized.contains i.drug && i.nutrient.toLower = nutrient.toLower)

/-- The drug-interaction check as the claim describes it (refinement
comparison definition): the source's severity pipeline over the claim's
normalization. -/
def specCheckDrugInteractions (nutrient : String) (medications : List String) :
    Option RuleResult :=
  drugRuleFromMatched nutrient (specMatchedInteractions nutrient medications)

/-- The merged rule result of a nutrient for a profile
(`_merge_rule_results` ignores the base score, so this determines the merged
action and weight modifier of every candidate with that nutrient). -/
def mergedFor (profile : HealthProfile) (nutrient : String) : RuleResult :=
  mergeRuleResults nutrient 0
    (checkAllergyRules nutrient profile.allergies)
    (checkChronicConditionRules nutrient profile.chronic_conditions)
    (checkDrugInteractions nutrient profile.medications)

/-- Every nutrient key that appears in `GOAL_NUTRIENT_MAPPING`,
`DIETARY_PREFERENCE_MODIFIERS` or `METRIC_NUTRIENT_MAPPING`: the only
nutrients the hybrid scoring engine can ever emit. -/
def scoringUniverse : List String :=
  ["probiotics", "protein_powder", "vitamin_b_complex", "green_tea_extract",
   "magnesium", "calcium", "zinc", "iron", "coq10", "vitamin_d", "vitamin_c",
   "omega_3", "collagen", "vitamin_e", "vitamin_k", "ginkgo", "melatonin",
   "vitamin_b12", "sodium", "potassium", "folic_acid", "chromium", "niacin",
   "fiber", "milk_thistle", "cherry_extract", "quercetin", "selenium", "iodine"]

/-- Number of ACTIVE versions of one config type in the store. -/
def countActive (st : CfgState) (t : CfgType) : Nat :=
  (st.versions.filter (fun c => c.config_type = t ∧ c.status = .active)).length

/-- The spec's invariant: at most one ACTIVE version per config type. -/
def singleActiveInv (st : CfgState) : Prop :=
  ∀ t, countActive st t ≤ 1

-- Concrete inputs for witnesses and counterexamples --------------------------

/-- Demo profile: immunity goal only (five candidates survive). -/
def demoProfileImmunity : RecHealthProfile :=
  { user_id := "demo-user", goals := ["immunity"] }

/-- Demo profile: sleep goal only (only four candidates exist). -/
def demoProfileSleep : RecHealthProfile :=
  { user_id := "demo-user", goals := ["sleep"] }

/-- Demo profile of the claim's example scenario: shellfish allergy with an
immunity goal. -/
def demoProfileShellfish : RecHealthProfile :=
  { user_id := "demo-user", allergies := ["shellfish"], goals := ["immunity"] }

/-- A demo candidate list for the rule-engine claims. -/
def demoCandidates : List NutrientCandidate :=
  [{ nutrient := "omega_3_krill", base_score := 90 },
   { nutrient := "omega_3", base_score := 80 },
   { nutrient := "vitamin_c", base_score := 70 }]

/-- Demo config rows at full, zero and half rollout. -/
def demoCfgFull : Cfg :=
  { id := 1, config_type := .ruleset, version := 1, status := .active, rollout_percent := 100 }

/-- Demo config at zero rollout. -/
def demoCfgZero : Cfg :=
  { id := 2, config_type := .ruleset, version := 2, status := .deploying, rollout_percent := 0 }

/-- Demo config at half rollout. -/
def demoCfgHalf : Cfg :=
  { id := 3, config_type := .ruleset, version := 3, status := .deploying, rollout_percent := 50 }

/-- A store with a single DRAFT version. -/
def demoStateDraft : CfgState :=
  { versions := [{ id := 1, config_type := .ruleset, version := 1, status := .draft,
                   rollout_percent := 0 }],
    logs := [] }

/-- A store with a single ROLLED_BACK version. -/
def demoStateRolledBack : CfgState :=
  { versions := [{ id := 1, config_type := .ruleset, version := 1, status := .rolledBack,
                   rollout_percent := 0 }],
    logs := [] }

/-- A store with an ACTIVE v1 and a DEPLOYING v2 of the same type. -/
def demoStateDeploying : CfgState :=
  { versions := [{ id := 1, config_type := .ruleset, version := 1, status := .active,
                   rollout_percent := 100 },
                 { id := 2, config_type := .ruleset, version := 2, status := .deploying,
                   rollout_percent := 50 }],
    logs := [] }

/-- Demo lab metric: low hemoglobin. -/
def demoLabMetricLow : LabMetric :=
  { name := some "hemoglobin", value := some (21/2), unit := some "g/dL", flag := some "low" }

/-- A store with an ACTIVE v2 and a ROLLED_BACK v1 of the same type. -/
def demoStateRollback : CfgState :=
  { versions := [{ id := 1, config_type := .ruleset, version := 1, status := .rolledBack,
                   rollout_percent := 100 },
                 { id := 2, config_type := .ruleset, version := 2, status := .active,
                   rollout_percent := 100 }],
    logs := [] }

-- ===========================================================================
-- Generic lemmas
-- ===========================================================================

theorem mem_insertLe {α : Type} (le : α → α → Bool) (a x : α) (l : List α) :
    x ∈ insertLe le a l ↔ x = a ∨ x ∈ l := by
  induction l with
  | nil => simp [insertLe]
  | cons b t ih =>
    by_cases h : le a b
    · simp [insertLe, h]
    · simp only [insertLe, h]
      simp only [Bool.false_eq_true, if_false, List.mem_cons, ih]
      tauto

theorem mem_sortLe {α : Type} (le : α → α → Bool) (x : α) (l : List α) :
    x ∈ sortLe le l ↔ x ∈ l := by
  induction l with
  | nil => simp [sortLe]
  | cons a t ih => simp [sortLe, mem_insertLe, ih]

theorem insertLe_pairwise {α : Type} {le : α → α → Bool}
    (htot : ∀ a b, le a b = true ∨ le b a = true)
    (htrans : ∀ x y z, le x y = true → le y z = true → le x z = true)
    (a : α) {l : List α} (hl : l.Pairwise (fun x y => le x y = true)) :
    (insertLe le a l).Pairwise (fun x y => le x y = true) := by
  induction l with
  | nil => simp [insertLe]
  | cons b t ih =>
    rcases List.pairwise_cons.1 hl with ⟨hb, ht⟩
    by_cases h : le a b = true
    · simp only [insertLe, h, if_true]
      refine List.pairwise_cons.2 ⟨?_, hl⟩
      intro x hx
      rcases List.mem_cons.1 hx with rfl | hx
      · exact h
      · exact htrans a b x h (hb x hx)
    · simp only [insertLe, h, if_false]
      refine List.pairwise_cons.2 ⟨?_, ih ht⟩
      intro x hx
      rcases (mem_insertLe le a x t).1 hx with rfl | hx
      · rcases htot x b with h' | h'
        · exact absurd h' h
        · exact h'
      · exact hb x hx

theorem sortLe_pairwise {α : Type} {le : α → α → Bool}
    (htot : ∀ a b, le a b = true ∨ le b a = true)
    (htrans : ∀ x y z, le x y = true → le y z = true → le x z = true)
    (l : List α) : (sortLe le l).Pairwise (fun x y => le x y = true) := by
  induction l with
  | nil => simp [sortLe]
  | cons a t ih => exact insertLe_pairwise htot htrans a ih

theorem alistGet?_mem {α : Type} {l : List (String × α)} {k : String} {v : α}
    (h : alistGet? l k = some v) : (k, v) ∈ l := by
  unfold alistGet? at h
  rcases Option.map_eq_some'.1 h with ⟨p, hp, hv⟩
  have hk := List.find?_some hp
  have hm := List.mem_of_find?_eq_some hp
  simp only [decide_eq_true_eq] at hk
  cases p
  simp_all

-- ===========================================================================
-- C9: gray rollout decision
-- ===========================================================================

/-- C9: `should_apply_config` is deterministic — the same (hash, config,
user) always yields the same boolean — returns true whenever
`rollout_percent ≥ 100`, false whenever `rollout_percent ≤ 0`, and otherwise
returns `hash(user_id) % 100 < rollout_percent`. -/
theorem shouldApplyConfig_deterministic_thresholds
    (h : String → ℤ) (config : Cfg) (user_id : String) :
    shouldApplyConfig h config user_id = shouldApplyConfig h config user_id ∧
    (100 ≤ config.rollout_percent → shouldApplyConfig h config user_id = true) ∧
    (config.rollout_percent ≤ 0 → shouldApplyConfig h config user_id = false) ∧
    (0 < config.rollout_percent → config.rollout_percent < 100 →
      shouldApplyConfig h config user_id =
        decide (h user_id % 100 < config.rollout_percent)) := by
  refine ⟨rfl, ?_, ?_, ?_⟩
  · intro h100
    simp [shouldApplyConfig, h100]
  · intro h0
    have : ¬ (100 : ℤ) ≤ config.rollout_percent := by omega
    simp [shouldApplyConfig, this, h0]
  · intro hlo hhi
    have h1 : ¬ (config.rollout_percent ≥ 100) := by omega
    have h2 : ¬ (config.rollout_percent ≤ 0) := by omega
    simp [shouldApplyConfig, h1, h2]

/-- Witness for C9 at concrete configs and a concrete hash. -/
theorem shouldApplyConfig_deterministic_thresholds_witness :
    shouldApplyConfig (fun _ => 37) demoCfgFull "user-a" = true ∧
    shouldApplyConfig (fun _ => 37) demoCfgZero "user-a" = false ∧
    shouldApplyConfig (fun _ => 37) demoCfgHalf "user-a" =
      decide ((37 : ℤ) % 100 < 50) :=
  ⟨(shouldApplyConfig_deterministic_thresholds (fun _ => 37) demoCfgFull "user-a").2.1
     (by decide),
   (shouldApplyConfig_deterministic_thresholds (fun _ => 37) demoCfgZero "user-a").2.2.1
     (by decide),
   (shouldApplyConfig_deterministic_thresholds (fun _ => 37) demoCfgHalf "user-a").2.2.2
     (by decide) (by decide)⟩

-- ===========================================================================
-- Config-service helper lemmas
-- ===========================================================================

theorem getConfigById_spec {st : CfgState} {vid : Nat} {cfg : Cfg}
    (h : getConfigById st vid = some cfg) : cfg ∈ st.versions ∧ cfg.id = vid := by
  refine ⟨List.mem_of_find?_eq_some h, ?_⟩
  have := List.find?_some h
  simpa using this

theorem nodup_id_inj {vs : List Cfg} (h : (vs.map (·.id)).Nodup)
    {c c' : Cfg} (hc : c ∈ vs) (hc' : c' ∈ vs) (hid : c'.id = c.id) : c' = c :=
  List.inj_on_of_nodup_map h hc' hc hid

theorem foldlMax_mem (a : Cfg) (t : List Cfg) :
    t.foldl (fun best x => if x.version > best.version then x else best) a = a ∨
    t.foldl (fun best x => if x.version > best.version then x else best) a ∈ t := by
  induction t generalizing a with
  | nil => simp
  | cons x xs ih =>
    simp only [List.foldl_cons]
    rcases ih (if x.version > a.version then x else a) with h | h
    · rw [h]
      by_cases hv : x.version > a.version
      · simp only [hv, if_pos]
        right
        exact List.mem_cons_self x xs
      · simp only [hv, if_neg]
        left
        rfl
    · right
      exact List.mem_cons_of_mem _ h

theorem foldlMax_ge_seed (a : Cfg) (t : List Cfg) :
    a.version ≤
      (t.foldl (fun best x => if x.version > best.version then x else best) a).version := by
  induction t generalizing a with
  | nil => simp
  | cons x xs ih =>
    simp only [List.foldl_cons]
    by_cases hv : x.version > a.version
    · exact le_trans (le_of_lt hv) (by simpa [hv] using ih x)
    · simpa [hv] using ih a

theorem foldlMax_ge_mem (a : Cfg) (t : List Cfg) :
    ∀ x ∈ t, x.version ≤
      (t.foldl (fun best x => if x.version > best.version then x else best) a).version := by
  induction t generalizing a with
  | nil => simp
  | cons y ys ih =>
    intro x hx
    simp only [List.foldl_cons]
    rcases List.mem_cons.1 hx with rfl | hx'
    · by_cases hv : x.version > a.version
      · simpa [hv] using foldlMax_ge_seed x ys
      · have hxa : x.version ≤ a.version := by omega
        exact le_trans hxa (by simpa [hv] using foldlMax_ge_seed a ys)
    · exact ih (if y.version > a.version then y else a) x hx'

theorem maxByVersion_mem {l : List Cfg} {c : Cfg} (h : maxByVersion l = some c) :
    c ∈ l := by
  cases l with
  | nil => simp [maxByVersion] at h
  | cons a t =>
    simp only [maxByVersion, Option.some.injEq] at h
    subst h
    rcases foldlMax_mem a t with h | h
    · rw [h]
      exact List.mem_cons_self a t
    · exact List.mem_cons_of_mem _ h

theorem maxByVersion_ge {l : List Cfg} {c : Cfg} (h : maxByVersion l = some c) :
    ∀ x ∈ l, x.version ≤ c.version := by
  cases l with
  | nil => simp [maxByVersion] at h
  | cons a t =>
    simp only [maxByVersion, Option.some.injEq] at h
    subst h
    intro x hx
    rcases List.mem_cons.1 hx with rfl | hx'
    · exact foldlMax_ge_seed x t
    · exact foldlMax_ge_mem a t x hx'

-- ===========================================================================
-- C7: config state machine transition discipline
-- ===========================================================================

theorem validateTransition_approved_iff (s : CfgStatus) :
    validateTransition s .approved = true ↔ s = .draft := by
  cases s <;> simp [validateTransition, VALID_TRANSITIONS]

theorem validateTransition_deploying_iff (s : CfgStatus) :
    validateTransition s .deploying = true ↔ s = .approved := by
  cases s <;> simp [validateTransition, VALID_TRANSITIONS]

theorem validateTransition_active_iff (s : CfgStatus) :
    validateTransition s .active = true ↔ s = .deploying := by
  cases s <;> simp [validateTransition, VALID_TRANSITIONS]

/-- Counterexample to C7 as stated: `rollback_config` moves a ROLLED_BACK
version back to ACTIVE, so ROLLED_BACK is not terminal and the status graph
is not restricted to the four claimed edges. -/
theorem rolledBack_not_terminal_counterexample :
    getConfigById demoStateRolledBack 1 =
      some { id := 1, config_type := .ruleset, version := 1, status := .rolledBack,
             rollout_percent := 0 } ∧
    (rollbackConfig demoStateRolledBack .ruleset).1 =
      .ok { id := 1, config_type := .ruleset, version := 1, status := .active,
            rollout_percent := 100 } ∧
    getConfigById (rollbackConfig demoStateRolledBack .ruleset).2 1 =
      some { id := 1, config_type := .ruleset, version := 1, status := .active,
             rollout_percent := 100 } := by
  refine ⟨by decide, by rfl, by decide⟩

/-- C7 (amended): `approve_config`/`deploy_config`/`activate_config` move a
version's status only along DRAFT→APPROVED→DEPLOYING→ACTIVE (plus the
audited ACTIVE→ROLLED_BACK demotions of `activate_config`); any other
requested transition raises the invalid-transition error naming the current
and target status and leaves the store unchanged — in particular
`deploy_config` and `activate_config` on a DRAFT version fail this way.
`rollback_config` is the exception to ROLLED_BACK terminality: it moves
statuses only along ACTIVE→ROLLED_BACK and ROLLED_BACK→ACTIVE. -/
theorem config_transition_discipline (st : CfgState) (vid : Nat) (cfg : Cfg)
    (hfind : getConfigById st vid = some cfg)
    (hnodup : (st.versions.map (·.id)).Nodup) :
    (cfg.status ≠ .draft →
      approveConfig st vid = (.error (.invalidTransition cfg.status .approved), st)) ∧
    (cfg.status ≠ .approved → ∀ pct,
      deployConfig st vid pct = (.error (.invalidTransition cfg.status .deploying), st)) ∧
    (cfg.status ≠ .deploying →
      activateConfig st vid = (.error (.invalidTransition cfg.status .active), st)) ∧
    (∀ c ∈ st.versions, ∀ c' ∈ (approveConfig st vid).2.versions, c'.id = c.id →
      c'.status = c.status ∨ validateTransition c.status c'.status = true) ∧
    (∀ pct, ∀ c ∈ st.versions, ∀ c' ∈ (deployConfig st vid pct).2.versions, c'.id = c.id →
      c'.status = c.status ∨ validateTransition c.status c'.status = true) ∧
    (∀ c ∈ st.versions, ∀ c' ∈ (activateConfig st vid).2.versions, c'.id = c.id →
      c'.status = c.status ∨ validateTransition c.status c'.status = true) ∧
    (∀ t, ∀ c ∈ st.versions, ∀ c' ∈ (rollbackConfig st t).2.versions, c'.id = c.id →
      c'.status = c.status ∨ (c.status = .active ∧ c'.status = .rolledBack) ∨
        (c.status = .rolledBack ∧ c'.status = .active)) := by
  obtain ⟨hmem, hid⟩ := getConfigById_spec hfind
  refine ⟨?_, ?_, ?_, ?_, ?_, ?_, ?_⟩
  · -- approve on non-DRAFT errors
    intro hne
    have hv : validateTransition cfg.status .approved = false := by
      cases hvb : validateTransition cfg.status .approved with
      | false => rfl
      | true => exact absurd ((validateTransition_approved_iff _).1 hvb) hne
    simp [approveConfig, hfind, hv]
  · -- deploy on non-APPROVED errors
    intro hne pct
    have hv : validateTransition cfg.status .deploying = false := by
      cases hvb : validateTransition cfg.status .deploying with
      | false => rfl
      | true => exact absurd ((validateTransition_deploying_iff _).1 hvb) hne
    simp [deployConfig, hfind, hv]
  · -- activate on non-DEPLOYING errors
    intro hne
    have hv : validateTransition cfg.status .active = false := by
      cases hvb : validateTransition cfg.status .active with
      | false => rfl
      | true => exact absurd ((validateTransition_active_iff _).1 hvb) hne
    simp [activateConfig, hfind, hv]
  · -- approve changes statuses only along the table
    intro c hc c' hc' hcid
    cases hv : validateTransition cfg.status .approved with
    | false =>
      simp only [approveConfig, hfind, hv, Bool.false_eq_true, if_false] at hc'
      left
      exact congrArg Cfg.status (nodup_id_inj hnodup hc hc' hcid)
    | true =>
      simp only [approveConfig, hfind, hv, if_true] at hc'
      rcases List.mem_map.1 hc' with ⟨x, hx, hfx⟩
      by_cases hxv : x.id = vid
      · rw [if_pos hxv] at hfx
        have hcid' : c'.id = x.id := by rw [← hfx]
        have hcx : x = c := nodup_id_inj hnodup hc hx (hcid' ▸ hcid)
        have hst : c'.status = .approved := by rw [← hfx]
        have hxcfg : x = cfg := nodup_id_inj hnodup hmem hx (by rw [hxv, hid])
        right
        rw [hst, ← hcx, hxcfg]
        exact hv
      · rw [if_neg hxv] at hfx
        left
        exact congrArg Cfg.status (nodup_id_inj hnodup hc (hfx ▸ hx) hcid)
  · -- deploy changes statuses only along the table
    intro pct c hc c' hc' hcid
    cases hv : validateTransition cfg.status .deploying with
    | false =>
      simp only [deployConfig, hfind, hv, Bool.false_eq_true, if_false] at hc'
      left
      exact congrArg Cfg.status (nodup_id_inj hnodup hc hc' hcid)
    | true =>
      simp only [deployConfig, hfind, hv, if_true] at hc'
      rcases List.mem_map.1 hc' with ⟨x, hx, hfx⟩
      by_cases hxv : x.id = vid
      · rw [if_pos hxv] at hfx
        have hcid' : c'.id = x.id := by rw [← hfx]
        have hcx : x = c := nodup_id_inj hnodup hc hx (hcid' ▸ hcid)
        have hst : c'.status = .deploying := by rw [← hfx]
        have hxcfg : x = cfg := nodup_id_inj hnodup hmem hx (by rw [hxv, hid])
        right
        rw [hst, ← hcx, hxcfg]
        exact hv
      · rw [if_neg hxv] at hfx
        left
        exact congrArg Cfg.status (nodup_id_inj hnodup hc (hfx ▸ hx) hcid)
  · -- activate changes statuses only along the table
    intro c hc c' hc' hcid
    cases hv : validateTransition cfg.status .active with
    | false =>
      simp only [activateConfig, hfind, hv, Bool.false_eq_true, if_false] at hc'
      left
      exact congrArg Cfg.status (nodup_id_inj hnodup hc hc' hcid)
    | true =>
      simp only [activateConfig, hfind, hv, if_true] at hc'
      rcases List.mem_map.1 hc' with ⟨x, hx, hfx⟩
      by_cases hdem : x.config_type = cfg.config_type ∧ x.status = .active ∧ x.id ≠ cfg.id
      · rw [if_pos hdem] at hfx
        have hcid' : c'.id = x.id := by rw [← hfx]
        have hcx : x = c := nodup_id_inj hnodup hc hx (hcid' ▸ hcid)
        have hst : c'.status = .rolledBack := by rw [← hfx]
        right
        rw [hst, ← hcx, hdem.2.1]
        decide
      · rw [if_neg hdem] at hfx
        by_cases hxv : x.id = vid
        · rw [if_pos hxv] at hfx
          have hcid' : c'.id = x.id := by rw [← hfx]
          have hcx : x = c := nodup_id_inj hnodup hc hx (hcid' ▸ hcid)
          have hst : c'.status = .active := by rw [← hfx]
          have hxcfg : x = cfg := nodup_id_inj hnodup hmem hx (by rw [hxv, hid])
          have hdepl : cfg.status = .deploying := (validateTransition_active_iff _).1 hv
          right
          rw [hst, ← hcx, hxcfg, hdepl]
          decide
        · rw [if_neg hxv] at hfx
          left
          exact congrArg Cfg.status (nodup_id_inj hnodup hc (hfx ▸ hx) hcid)
  · -- rollback moves statuses only along ACTIVE→ROLLED_BACK / ROLLED_BACK→ACTIVE
    intro t c hc c' hc' hcid
    cases hprev : latestRolledBack st t with
    | none =>
      simp only [rollbackConfig, hprev] at hc'
      left
      exact congrArg Cfg.status (nodup_id_inj hnodup hc hc' hcid)
    | some prev =>
      have hprevmem : prev ∈ st.versions ∧ prev.status = .rolledBack := by
        have hm := List.mem_filter.1 (maxByVersion_mem hprev)
        refine ⟨hm.1, ?_⟩
        have h2 := hm.2
        simp only [decide_eq_true_eq] at h2
        exact h2.2
      simp only [rollbackConfig, hprev] at hc'
      rcases List.mem_map.1 hc' with ⟨x, hx, hfx⟩
      cases hcureq : getActiveConfig st t with
      | none =>
        rw [hcureq] at hfx
        simp only [Option.any_none, Bool.false_eq_true, if_false] at hfx
        by_cases hxprev : x.id = prev.id
        · rw [if_pos hxprev] at hfx
          have hcid' : c'.id = x.id := by rw [← hfx]
          have hcx : x = c := nodup_id_inj hnodup hc hx (hcid' ▸ hcid)
          have hst : c'.status = .active := by rw [← hfx]
          have hxp : x = prev := nodup_id_inj hnodup hprevmem.1 hx hxprev
          right; right
          exact ⟨by rw [← hcx, hxp]; exact hprevmem.2, hst⟩
        · rw [if_neg hxprev] at hfx
          left
          exact congrArg Cfg.status (nodup_id_inj hnodup hc (hfx ▸ hx) hcid)
      | some cur =>
        have hcurmem : cur ∈ st.versions ∧ cur.status = .active := by
          have hm := List.mem_filter.1 (maxByVersion_mem hcureq)
          refine ⟨hm.1, ?_⟩
          have h2 := hm.2
          simp only [decide_eq_true_eq] at h2
          exact h2.2
        rw [hcureq] at hfx
        simp only [Option.any_some] at hfx
        by_cases hxcur : x.id = cur.id
        · rw [if_pos (by simpa using hxcur)] at hfx
          have hcid' : c'.id = x.id := by rw [← hfx]
          have hcx : x = c := nodup_id_inj hnodup hc hx (hcid' ▸ hcid)
          have hst : c'.status = .rolledBack := by rw [← hfx]
          have hxc : x = cur := nodup_id_inj hnodup hcurmem.1 hx hxcur
          right; left
          exact ⟨by rw [← hcx, hxc]; exact hcurmem.2, hst⟩
        · rw [if_neg (by simpa using hxcur)] at hfx
          by_cases hxprev : x.id = prev.id
          · rw [if_pos hxprev] at hfx
            have hcid' : c'.id = x.id := by rw [← hfx]
            have hcx : x = c := nodup_id_inj hnodup hc hx (hcid' ▸ hcid)
            have hst : c'.status = .active := by rw [← hfx]
            have hxp : x = prev := nodup_id_inj hnodup hprevmem.1 hx hxprev
            right; right
            exact ⟨by rw [← hcx, hxp]; exact hprevmem.2, hst⟩
          · rw [if_neg hxprev] at hfx
            left
            exact congrArg Cfg.status (nodup_id_inj hnodup hc (hfx ▸ hx) hcid)

/-- Witness for C7 (amended) at the single-DRAFT store: deploying or
activating the DRAFT version fails with the invalid-transition error naming
DRAFT and the target. -/
theorem config_transition_discipline_witness :
    deployConfig demoStateDraft 1 50 =
      (.error (.invalidTransition .draft .deploying), demoStateDraft) ∧
    activateConfig demoStateDraft 1 =
      (.error (.invalidTransition .draft .active), demoStateDraft) := by
  have h := config_transition_discipline demoStateDraft 1
    { id := 1, config_type := .ruleset, version := 1, status := .draft, rollout_percent := 0 }
    (by decide) (by decide)
  exact ⟨h.2.1 (by decide) 50, h.2.2.1 (by decide)⟩

-- ===========================================================================
-- C8: rollback_config
-- ===========================================================================

/-- C8: `rollback_config` re-activates the ROLLED_BACK version of the config
type with the highest version number (status ACTIVE, rollout 100), demotes
the currently ACTIVE version (if any, with an audit row), and when no
ROLLED_BACK version of the type exists it raises the distinct
no-previous-active-version error, modifying no version and writing no audit
log. -/
theorem rollback_config_correct (st : CfgState) (t : CfgType)
    (hnodup : (st.versions.map (·.id)).Nodup) :
    ((st.versions.filter (fun c => c.config_type = t ∧ c.status = .rolledBack)) = [] →
      rollbackConfig st t = (.error .noPreviousActive, st)) ∧
    (∀ prev, latestRolledBack st t = some prev →
      prev.config_type = t ∧ prev.status = .rolledBack ∧ prev ∈ st.versions ∧
      (∀ c ∈ st.versions, c.config_type = t → c.status = .rolledBack →
        c.version ≤ prev.version) ∧
      (rollbackConfig st t).1 = .ok { prev with status := .active, rollout_percent := 100 } ∧
      (∀ c' ∈ (rollbackConfig st t).2.versions, c'.id = prev.id →
        c'.status = .active ∧ c'.rollout_percent = 100) ∧
      (∀ cur, getActiveConfig st t = some cur →
        (∀ c' ∈ (rollbackConfig st t).2.versions, c'.id = cur.id →
          c'.status = .rolledBack) ∧
        ({ config_version_id := cur.id, action := .rollback,
           before_status := some .active, after_status := some .rolledBack } : AuditRow)
          ∈ (rollbackConfig st t).2.logs)) := by
  constructor
  · intro hemp
    have hnone : latestRolledBack st t = none := by
      unfold latestRolledBack
      simp only [Bool.decide_and] at hemp ⊢
      rw [hemp]
      rfl
    simp [rollbackConfig, hnone]
  · intro prev hprev
    have hm := List.mem_filter.1 (maxByVersion_mem hprev)
    have hpt : prev.config_type = t ∧ prev.status = .rolledBack := by
      have h2 := hm.2
      simp only [decide_eq_true_eq] at h2
      exact h2
    refine ⟨hpt.1, hpt.2, hm.1, ?_, ?_, ?_, ?_⟩
    · intro c hc hct hcs
      exact maxByVersion_ge hprev c (List.mem_filter.2 ⟨hc, by simp [hct, hcs]⟩)
    · simp [rollbackConfig, hprev]
    · intro c' hc' hcid
      simp only [rollbackConfig, hprev] at hc'
      rcases List.mem_map.1 hc' with ⟨x, hx, hfx⟩
      have hxid : c'.id = x.id := by
        cases hcureq : getActiveConfig st t with
        | none =>
          rw [hcureq] at hfx
          simp only [Option.any_none, Bool.false_eq_true, if_false] at hfx
          by_cases hxprev : x.id = prev.id
          · rw [if_pos hxprev] at hfx; rw [← hfx]
          · rw [if_neg hxprev] at hfx; rw [← hfx]
        | some cur =>
          rw [hcureq] at hfx
          simp only [Option.any_some] at hfx
          by_cases hxcur : x.id = cur.id
          · rw [if_pos (by simpa using hxcur)] at hfx; rw [← hfx]
          · rw [if_neg (by simpa using hxcur)] at hfx
            by_cases hxprev : x.id = prev.id
            · rw [if_pos hxprev] at hfx; rw [← hfx]
            · rw [if_neg hxprev] at hfx; rw [← hfx]
      have hxprev : x = prev := nodup_id_inj hnodup hm.1 hx (hxid ▸ hcid)
      -- with x = prev, the cur-demotion branch is impossible and the
      -- prev-activation branch fires
      cases hcureq : getActiveConfig st t with
      | none =>
        rw [hcureq] at hfx
        simp only [Option.any_none, Bool.false_eq_true, if_false] at hfx
        rw [if_pos (by rw [hxprev])] at hfx
        exact ⟨by rw [← hfx], by rw [← hfx]⟩
      | some cur =>
        have hcurmem : cur ∈ st.versions ∧ cur.status = .active := by
          have hmc := List.mem_filter.1 (maxByVersion_mem hcureq)
          have h2 := hmc.2
          simp only [decide_eq_true_eq] at h2
          exact ⟨hmc.1, h2.2⟩
        rw [hcureq] at hfx
        simp only [Option.any_some] at hfx
        have hxnc : ¬ x.id = cur.id := by
          intro hxc
          have : x = cur := nodup_id_inj hnodup hcurmem.1 hx hxc
          rw [hxprev] at this
          rw [← this] at hcurmem
          rw [hpt.2] at hcurmem
          exact absurd hcurmem.2 (by decide)
        rw [if_neg (by simpa using hxnc)] at hfx
        rw [if_pos (by rw [hxprev])] at hfx
        exact ⟨by rw [← hfx], by rw [← hfx]⟩
    · intro cur hcur
      have hcurmem : cur ∈ st.versions ∧ cur.status = .active := by
        have hmc := List.mem_filter.1 (maxByVersion_mem hcur)
        have h2 := hmc.2
        simp only [decide_eq_true_eq] at h2
        exact ⟨hmc.1, h2.2⟩
      constructor
      · intro c' hc' hcid
        simp only [rollbackConfig, hprev] at hc'
        rcases List.mem_map.1 hc' with ⟨x, hx, hfx⟩
        rw [hcur] at hfx
        simp only [Option.any_some] at hfx
        by_cases hxcur : x.id = cur.id
        · rw [if_pos (by simpa using hxcur)] at hfx
          rw [← hfx]
        · rw [if_neg (by simpa using hxcur)] at hfx
          by_cases hxprev : x.id = prev.id
          · rw [if_pos hxprev] at hfx
            have : c'.id = x.id := by rw [← hfx]
            exact absurd (this ▸ hcid : x.id = cur.id) hxcur
          · rw [if_neg hxprev] at hfx
            have : c'.id = x.id := by rw [← hfx]
            exact absurd (this ▸ hcid : x.id = cur.id) hxcur
      · simp [rollbackConfig, hprev, hcur]

/-- Witness for C8 at a store with an ACTIVE v2 and a ROLLED_BACK v1, and at
an empty store. -/
theorem rollback_config_correct_witness :
    (rollbackConfig demoStateRollback .ruleset).1 =
      .ok { id := 1, config_type := .ruleset, version := 1, status := .active,
            rollout_percent := 100 } ∧
    rollbackConfig { versions := [], logs := [] } .ruleset =
      (.error .noPreviousActive, { versions := [], logs := [] }) := by
  constructor
  · exact ((rollback_config_correct demoStateRollback .ruleset (by decide)).2
      { id := 1, config_type := .ruleset, version := 1, status := .rolledBack,
        rollout_percent := 100 } (by rfl)).2.2.2.2.1
  · exact (rollback_config_correct { versions := [], logs := [] } .ruleset (by decide)).1
      (by rfl)

-- ===========================================================================
-- C6: activation and the single-ACTIVE invariant
-- ===========================================================================

theorem mem_of_len_le_one {α : Type} {l : List α} (h : l.length ≤ 1) {a b : α}
    (ha : a ∈ l) (hb : b ∈ l) : a = b := by
  cases l with
  | nil => cases ha
  | cons x t =>
    cases t with
    | nil =>
      simp only [List.mem_singleton] at ha hb
      rw [ha, hb]
    | cons y u => simp at h

theorem filter_id_length_le_one {vs : List Cfg} (h : (vs.map (·.id)).Nodup) (vid : Nat) :
    (vs.filter (fun c => decide (c.id = vid))).length ≤ 1 := by
  rw [← List.countP_eq_length_filter]
  have h1 : List.countP (fun c => decide (c.id = vid)) vs
      = List.countP (fun n => n == vid) (vs.map (·.id)) := by
    rw [List.countP_map]
    exact List.countP_congr (fun c _ => by simp)
  rw [h1]
  have h2 := List.nodup_iff_count_le_one.1 h vid
  simpa [List.count] using h2

theorem maxByVersion_eq_none_iff (l : List Cfg) : maxByVersion l = none ↔ l = [] := by
  cases l <;> simp [maxByVersion]

theorem filter_map_length_le {α : Type} (vs : List α) (f : α → α) (P : α → Bool)
    (h : ∀ c ∈ vs, P (f c) = true → P c = true) :
    ((vs.map f).filter P).length ≤ (vs.filter P).length := by
  induction vs with
  | nil => simp
  | cons c t ih =>
    simp only [List.map_cons, List.filter_cons]
    have iht := ih (fun x hx => h x (List.mem_cons_of_mem _ hx))
    by_cases hc : P (f c) = true
    · rw [if_pos hc, if_pos (h c (List.mem_cons_self c t) hc)]
      simpa using Nat.succ_le_succ iht
    · rw [if_neg hc]
      by_cases hc2 : P c = true
      · rw [if_pos hc2]
        exact le_trans iht (by simp [Nat.le_succ])
      · rw [if_neg hc2]
        exact iht

theorem activate_versions_eq (st : CfgState) (vid : Nat) (cfg : Cfg)
    (hfind : getConfigById st vid = some cfg) (hdep : cfg.status = .deploying) :
    (activateConfig st vid).2.versions =
      st.versions.map (fun c =>
        if c.config_type = cfg.config_type ∧ c.status = .active ∧ c.id ≠ cfg.id then
          { c with status := .rolledBack }
        else if c.id = vid then { c with status := .active, rollout_percent := 100 }
        else c) := by
  have hv : validateTransition cfg.status .active = true := by rw [hdep]; decide
  simp [activateConfig, hfind, hv]

theorem activate_same_type_le_one (st : CfgState) (vid : Nat) (cfg : Cfg)
    (hfind : getConfigById st vid = some cfg) (hdep : cfg.status = .deploying)
    (hnodup : (st.versions.map (·.id)).Nodup) :
    countActive (activateConfig st vid).2 cfg.config_type ≤ 1 := by
  obtain ⟨hmem, hid⟩ := getConfigById_spec hfind
  unfold countActive
  rw [activate_versions_eq st vid cfg hfind hdep]
  rw [← List.countP_eq_length_filter, List.countP_map]
  have hcong : List.countP
      ((fun c => decide (c.config_type = cfg.config_type ∧ c.status = CfgStatus.active)) ∘
        (fun c =>
          if c.config_type = cfg.config_type ∧ c.status = .active ∧ c.id ≠ cfg.id then
            { c with status := .rolledBack }
          else if c.id = vid then { c with status := .active, rollout_percent := 100 }
          else c)) st.versions
      = List.countP (fun c => decide (c.id = vid)) st.versions := by
    refine List.countP_congr (fun c hc => ?_)
    simp only [Function.comp_apply, decide_eq_true_eq]
    by_cases h1 : c.config_type = cfg.config_type ∧ c.status = .active ∧ c.id ≠ cfg.id
    · rw [if_pos h1]
      simp only []
      constructor
      · intro hcontra
        exact absurd hcontra.2 (by decide)
      · intro hcv
        exact absurd (hid ▸ hcv : c.id = cfg.id) h1.2.2
    · rw [if_neg h1]
      by_cases h2 : c.id = vid
      · rw [if_pos h2]
        have hcc : c = cfg := nodup_id_inj hnodup hmem hc (by rw [h2, hid])
        simp only [hcc]
        simp [hid]
      · rw [if_neg h2]
        constructor
        · intro hcontra
          exact absurd ⟨hcontra.1, hcontra.2, fun hh => h2 (hh ▸ hid ▸ rfl)⟩ h1
        · intro hcv
          exact absurd hcv h2
  rw [hcong, List.countP_eq_length_filter]
  exact filter_id_length_le_one hnodup vid

theorem activate_other_type_le (st : CfgState) (vid : Nat) (cfg : Cfg)
    (hfind : getConfigById st vid = some cfg) (hdep : cfg.status = .deploying)
    (hnodup : (st.versions.map (·.id)).Nodup) (t : CfgType)
    (hne : t ≠ cfg.config_type) :
    countActive (activateConfig st vid).2 t ≤ countActive st t := by
  obtain ⟨hmem, hid⟩ := getConfigById_spec hfind
  unfold countActive
  rw [activate_versions_eq st vid cfg hfind hdep]
  refine filter_map_length_le _ _ _ (fun c hc hP => ?_)
  by_cases h1 : c.config_type = cfg.config_type ∧ c.status = .active ∧ c.id ≠ cfg.id
  · rw [if_pos h1] at hP
    simp only [decide_eq_true_eq] at hP
    exact absurd hP.2 (by decide)
  · rw [if_neg h1] at hP
    by_cases h2 : c.id = vid
    · rw [if_pos h2] at hP
      simp only [decide_eq_true_eq] at hP
      have hcc : c = cfg := nodup_id_inj hnodup hmem hc (by rw [h2, hid])
      exact absurd (hcc ▸ hP.1 : cfg.config_type = t).symm hne
    · rw [if_neg h2] at hP
      exact hP

theorem rollback_versions_eq (st : CfgState) (t : CfgType) (prev : Cfg)
    (hprev : latestRolledBack st t = some prev) :
    (rollbackConfig st t).2.versions =
      st.versions.map (fun c =>
        if (getActiveConfig st t).any (fun cur => c.id = cur.id) then
          { c with status := .rolledBack }
        else if c.id = prev.id then { c with status := .active, rollout_percent := 100 }
        else c) := by
  simp [rollbackConfig, hprev]

theorem rollback_same_type_le_one (st : CfgState) (t : CfgType)
    (hinv : singleActiveInv st) (hnodup : (st.versions.map (·.id)).Nodup) :
    countActive (rollbackConfig st t).2 t ≤ 1 := by
  cases hprev : latestRolledBack st t with
  | none =>
    have : (rollbackConfig st t).2 = st := by simp [rollbackConfig, hprev]
    rw [this]
    exact hinv t
  | some prev =>
    have hm := List.mem_filter.1 (maxByVersion_mem hprev)
    have hpt : prev.config_type = t ∧ prev.status = .rolledBack := by
      have h2 := hm.2
      simp only [decide_eq_true_eq] at h2
      exact h2
    unfold countActive
    rw [rollback_versions_eq st t prev hprev]
    rw [← List.countP_eq_length_filter, List.countP_map]
    have hcong : List.countP
        ((fun c => decide (c.config_type = t ∧ c.status = CfgStatus.active)) ∘
          (fun c =>
            if (getActiveConfig st t).any (fun cur => c.id = cur.id) then
              { c with status := .rolledBack }
            else if c.id = prev.id then
              { c with status := .active, rollout_percent := 100 }
            else c)) st.versions
        = List.countP (fun c => decide (c.id = prev.id)) st.versions := by
      refine List.countP_congr (fun c hc => ?_)
      simp only [Function.comp_apply, decide_eq_true_eq]
      by_cases h1 : (getActiveConfig st t).any (fun cur => c.id = cur.id) = true
      · rw [if_pos h1]
        cases hcureq : getActiveConfig st t with
        | none => rw [hcureq] at h1; simp at h1
        | some cur =>
          rw [hcureq] at h1
          simp only [Option.any_some, decide_eq_true_eq] at h1
          have hcurmem : cur ∈ st.versions ∧ cur.status = .active := by
            have hmc := List.mem_filter.1 (maxByVersion_mem hcureq)
            have h2 := hmc.2
            simp only [decide_eq_true_eq] at h2
            exact ⟨hmc.1, h2.2⟩
          constructor
          · intro hcontra
            simp at hcontra
          · intro hcp
            have hcur_prev : cur = prev := by
              refine nodup_id_inj hnodup hm.1 hcurmem.1 ?_
              rw [← h1, hcp]
            rw [hcur_prev] at hcurmem
            rw [hpt.2] at hcurmem
            exact absurd hcurmem.2 (by decide)
      · rw [if_neg h1]
        by_cases h2 : c.id = prev.id
        · rw [if_pos h2]
          have hcp : c = prev := nodup_id_inj hnodup hm.1 hc h2
          simp only [hcp]
          simp [hpt.1]
        · rw [if_neg h2]
          constructor
          · intro hP
            -- c would be an ACTIVE version of type t, but then the current
            -- ACTIVE exists and equals c, contradicting the first guard
            have hcmem : c ∈ st.versions.filter
                (fun c => c.config_type = t ∧ c.status = .active) :=
              List.mem_filter.2 ⟨hc, by simp [hP.1, hP.2]⟩
            have hne : st.versions.filter
                (fun c => c.config_type = t ∧ c.status = .active) ≠ [] := by
              intro hh
              rw [hh] at hcmem
              cases hcmem
            have : ∃ cur, getActiveConfig st t = some cur := by
              unfold getActiveConfig
              cases hfil : st.versions.filter
                  (fun c => c.config_type = t ∧ c.status = .active) with
              | nil => exact absurd hfil hne
              | cons a l => exact ⟨_, rfl⟩
            rcases this with ⟨cur, hcureq⟩
            have hcurmem := maxByVersion_mem hcureq
            have hlen := hinv t
            unfold countActive at hlen
            have : c = cur := mem_of_len_le_one hlen hcmem hcurmem
            rw [hcureq] at h1
            simp only [Option.any_some, decide_eq_true_eq] at h1
            exact absurd (by rw [this]) h1
          · intro hcp
            exact absurd hcp h2
    rw [hcong, List.countP_eq_length_filter]
    exact filter_id_length_le_one hnodup prev.id

theorem rollback_other_type_le (st : CfgState) (t : CfgType)
    (hnodup : (st.versions.map (·.id)).Nodup) (t' : CfgType) (hne : t' ≠ t) :
    countActive (rollbackConfig st t).2 t' ≤ countActive st t' := by
  cases hprev : latestRolledBack st t with
  | none =>
    have : (rollbackConfig st t).2 = st := by simp [rollbackConfig, hprev]
    rw [this]
  | some prev =>
    have hm := List.mem_filter.1 (maxByVersion_mem hprev)
    have hpt : prev.config_type = t ∧ prev.status = .rolledBack := by
      have h2 := hm.2
      simp only [decide_eq_true_eq] at h2
      exact h2
    unfold countActive
    rw [rollback_versions_eq st t prev hprev]
    refine filter_map_length_le _ _ _ (fun c hc hP => ?_)
    by_cases h1 : (getActiveConfig st t).any (fun cur => c.id = cur.id) = true
    · rw [if_pos h1] at hP
      simp only [decide_eq_true_eq] at hP
      exact absurd hP.2 (by decide)
    · rw [if_neg h1] at hP
      by_cases h2 : c.id = prev.id
      · rw [if_pos h2] at hP
        simp only [decide_eq_true_eq] at hP
        have hcp : c = prev := nodup_id_inj hnodup hm.1 hc h2
        rw [hcp] at hP
        exact absurd (hpt.1 ▸ hP.1 : t = t').symm hne
      · rw [if_neg h2] at hP
        exact hP

theorem createDraft_preserves (st : CfgState) (t : CfgType) (newId : Nat) (t' : CfgType) :
    countActive (createDraft st t newId).2 t' = countActive st t' := by
  unfold countActive createDraft
  simp [List.filter_append]

theorem approve_le (st : CfgState) (vid : Nat) (t : CfgType) :
    countActive (approveConfig st vid).2 t ≤ countActive st t := by
  cases hfind : getConfigById st vid with
  | none => simp [approveConfig, hfind, le_refl]
  | some cfg =>
    cases hv : validateTransition cfg.status .approved with
    | false =>
      have : (approveConfig st vid).2 = st := by simp [approveConfig, hfind, hv]
      rw [this]
    | true =>
      have hvers : (approveConfig st vid).2.versions =
          st.versions.map (fun c => if c.id = vid then { c with status := .approved } else c) := by
        simp [approveConfig, hfind, hv]
      unfold countActive
      rw [hvers]
      refine filter_map_length_le _ _ _ (fun c hc hP => ?_)
      by_cases h2 : c.id = vid
      · rw [if_pos h2] at hP
        simp only [decide_eq_true_eq] at hP
        exact absurd hP.2 (by simp)
      · rw [if_neg h2] at hP
        exact hP

theorem deploy_le (st : CfgState) (vid : Nat) (pct : ℤ) (t : CfgType) :
    countActive (deployConfig st vid pct).2 t ≤ countActive st t := by
  cases hfind : getConfigById st vid with
  | none => simp [deployConfig, hfind, le_refl]
  | some cfg =>
    cases hv : validateTransition cfg.status .deploying with
    | false =>
      have : (deployConfig st vid pct).2 = st := by simp [deployConfig, hfind, hv]
      rw [this]
    | true =>
      have hvers : (deployConfig st vid pct).2.versions =
          st.versions.map (fun c => if c.id = vid then
            { c with status := .deploying, rollout_percent := max 0 (min 100 pct) } else c) := by
        simp [deployConfig, hfind, hv]
      unfold countActive
      rw [hvers]
      refine filter_map_length_le _ _ _ (fun c hc hP => ?_)
      by_cases h2 : c.id = vid
      · rw [if_pos h2] at hP
        simp only [decide_eq_true_eq] at hP
        exact absurd hP.2 (by simp)
      · rw [if_neg h2] at hP
        exact hP

theorem activate_logs_eq (st : CfgState) (vid : Nat) (cfg : Cfg)
    (hfind : getConfigById st vid = some cfg) (hdep : cfg.status = .deploying) :
    (activateConfig st vid).2.logs =
      st.logs ++
        (st.versions.filter (fun c =>
          c.config_type = cfg.config_type ∧ c.status = .active ∧ c.id ≠ cfg.id)).map
          (fun o => { config_version_id := o.id, action := .rollback,
                      before_status := some .active,
                      after_status := some .rolledBack }) ++
        [{ config_version_id := cfg.id, action := .activate,
           before_status := some cfg.status, after_status := some .active }] := by
  have hv : validateTransition cfg.status .active = true := by rw [hdep]; decide
  simp [activateConfig, hfind, hv]

/-- C6: on a DEPLOYING version, `activate_config` promotes it (status ACTIVE,
rollout forced to 100), demotes every other ACTIVE version of the same
config type to ROLLED_BACK writing exactly one audit row per demotion,
leaves at most one ACTIVE version of that config type, and the
single-ACTIVE-per-config-type invariant is preserved by every config-service
operation. -/
theorem activate_config_single_active :
    (∀ (st : CfgState) (vid : Nat) (cfg : Cfg),
      getConfigById st vid = some cfg → cfg.status = .deploying →
      (st.versions.map (·.id)).Nodup →
      (activateConfig st vid).1 =
        .ok { cfg with status := .active, rollout_percent := 100 } ∧
      (∀ c' ∈ (activateConfig st vid).2.versions, c'.id = vid →
        c'.status = .active ∧ c'.rollout_percent = 100) ∧
      (∀ c ∈ st.versions, c.config_type = cfg.config_type → c.status = .active →
        c.id ≠ vid →
        (∀ c' ∈ (activateConfig st vid).2.versions, c'.id = c.id →
          c'.status = .rolledBack) ∧
        ({ config_version_id := c.id, action := .rollback,
           before_status := some .active, after_status := some .rolledBack } : AuditRow)
          ∈ (activateConfig st vid).2.logs) ∧
      ((activateConfig st vid).2.logs.countP (fun r => r.action == CfgAuditAction.rollback) =
        st.logs.countP (fun r => r.action == CfgAuditAction.rollback) +
          (st.versions.filter (fun c =>
            c.config_type = cfg.config_type ∧ c.status = .active ∧ c.id ≠ cfg.id)).length) ∧
      countActive (activateConfig st vid).2 cfg.config_type ≤ 1 ∧
      (singleActiveInv st → singleActiveInv (activateConfig st vid).2)) ∧
    (∀ (st : CfgState) (t : CfgType) (newId : Nat),
      singleActiveInv st → singleActiveInv (createDraft st t newId).2) ∧
    (∀ (st : CfgState) (vid : Nat),
      singleActiveInv st → singleActiveInv (approveConfig st vid).2) ∧
    (∀ (st : CfgState) (vid : Nat) (pct : ℤ),
      singleActiveInv st → singleActiveInv (deployConfig st vid pct).2) ∧
    (∀ (st : CfgState) (vid : Nat),
      singleActiveInv st → (st.versions.map (·.id)).Nodup →
      singleActiveInv (activateConfig st vid).2) ∧
    (∀ (st : CfgState) (t : CfgType),
      singleActiveInv st → (st.versions.map (·.id)).Nodup →
      singleActiveInv (rollbackConfig st t).2) := by
  have hactivate_pres : ∀ (st : CfgState) (vid : Nat),
      singleActiveInv st → (st.versions.map (·.id)).Nodup →
      singleActiveInv (activateConfig st vid).2 := by
    intro st vid hinv hnodup t
    cases hfind : getConfigById st vid with
    | none =>
      have : (activateConfig st vid).2 = st := by simp [activateConfig, hfind]
      rw [this]
      exact hinv t
    | some cfg =>
      cases hv : validateTransition cfg.status .active with
      | false =>
        have : (activateConfig st vid).2 = st := by simp [activateConfig, hfind, hv]
        rw [this]
        exact hinv t
      | true =>
        have hdep : cfg.status = .deploying := (validateTransition_active_iff _).1 hv
        by_cases ht : t = cfg.config_type
        · rw [ht]
          exact activate_same_type_le_one st vid cfg hfind hdep hnodup
        · exact le_trans (activate_other_type_le st vid cfg hfind hdep hnodup t ht) (hinv t)
  refine ⟨?_, ?_, ?_, ?_, hactivate_pres, ?_⟩
  · intro st vid cfg hfind hdep hnodup
    obtain ⟨hmem, hid⟩ := getConfigById_spec hfind
    have hv : validateTransition cfg.status .active = true := by rw [hdep]; decide
    refine ⟨by simp [activateConfig, hfind, hv], ?_, ?_, ?_, ?_, ?_⟩
    · -- the promoted version
      intro c' hc' hcid
      rw [activate_versions_eq st vid cfg hfind hdep] at hc'
      rcases List.mem_map.1 hc' with ⟨x, hx, hfx⟩
      by_cases h1 : x.config_type = cfg.config_type ∧ x.status = .active ∧ x.id ≠ cfg.id
      · rw [if_pos h1] at hfx
        have hcid' : c'.id = x.id := by rw [← hfx]
        exact absurd ((hcid' ▸ hcid : x.id = vid).trans hid.symm) h1.2.2
      · rw [if_neg h1] at hfx
        by_cases h2 : x.id = vid
        · rw [if_pos h2] at hfx
          exact ⟨by rw [← hfx], by rw [← hfx]⟩
        · rw [if_neg h2] at hfx
          have hcid' : c'.id = x.id := by rw [← hfx]
          exact absurd (hcid' ▸ hcid) h2
    · -- demotions and their audit rows
      intro c hc hct hcs hcne
      have hcold : c ∈ st.versions.filter (fun c =>
          c.config_type = cfg.config_type ∧ c.status = .active ∧ c.id ≠ cfg.id) := by
        refine List.mem_filter.2 ⟨hc, ?_⟩
        simp only [decide_eq_true_eq]
        exact ⟨hct, hcs, by rw [hid]; exact hcne⟩
      constructor
      · intro c' hc' hcid
        rw [activate_versions_eq st vid cfg hfind hdep] at hc'
        rcases List.mem_map.1 hc' with ⟨x, hx, hfx⟩
        have hcid' : c'.id = x.id := by
          by_cases h1 : x.config_type = cfg.config_type ∧ x.status = .active ∧ x.id ≠ cfg.id
          · rw [if_pos h1] at hfx; rw [← hfx]
          · rw [if_neg h1] at hfx
            by_cases h2 : x.id = vid
            · rw [if_pos h2] at hfx; rw [← hfx]
            · rw [if_neg h2] at hfx; rw [← hfx]
        have hxc : x = c := nodup_id_inj hnodup hc hx (hcid' ▸ hcid)
        have h1 : x.config_type = cfg.config_type ∧ x.status = .active ∧ x.id ≠ cfg.id := by
          rw [hxc]
          exact ⟨hct, hcs, by rw [hid]; exact hcne⟩
        rw [if_pos h1] at hfx
        rw [← hfx]
      · rw [activate_logs_eq st vid cfg hfind hdep]
        refine List.mem_append.2 (Or.inl (List.mem_append.2 (Or.inr ?_)))
        exact List.mem_map.2 ⟨c, hcold, rfl⟩
    · -- one audit row per demotion
      rw [activate_logs_eq st vid cfg hfind hdep]
      rw [List.countP_append, List.countP_append]
      have h1 : List.countP (fun r => r.action == CfgAuditAction.rollback)
          [({ config_version_id := cfg.id, action := .activate,
              before_status := some cfg.status, after_status := some .active } : AuditRow)]
          = 0 := by simp
      have h2 : List.countP (fun r => r.action == CfgAuditAction.rollback)
          ((st.versions.filter (fun c =>
            c.config_type = cfg.config_type ∧ c.status = .active ∧ c.id ≠ cfg.id)).map
            (fun o => ({ config_version_id := o.id, action := .rollback,
                         before_status := some .active,
                         after_status := some .rolledBack } : AuditRow)))
          = (st.versions.filter (fun c =>
            c.config_type = cfg.config_type ∧ c.status = .active ∧ c.id ≠ cfg.id)).length := by
        rw [List.countP_map]
        refine List.countP_eq_length.2 (fun o ho => ?_)
        simp
      rw [h1, h2]
      omega
    · exact activate_same_type_le_one st vid cfg hfind hdep hnodup
    · intro hinv
      exact hactivate_pres st vid hinv hnodup
  · intro st t newId hinv t'
    rw [createDraft_preserves]
    exact hinv t'
  · intro st vid hinv t'
    exact le_trans (approve_le st vid t') (hinv t')
  · intro st vid pct hinv t'
    exact le_trans (deploy_le st vid pct t') (hinv t')
  · intro st t hinv hnodup t'
    by_cases ht : t' = t
    · rw [ht]
      exact rollback_same_type_le_one st t hinv hnodup
    · exact le_trans (rollback_other_type_le st t hnodup t' ht) (hinv t')

/-- Witness for C6: activating the DEPLOYING v2 over the ACTIVE v1 in
`demoStateDeploying`. -/
theorem activate_config_single_active_witness :
    (activateConfig demoStateDeploying 2).1 =
      .ok { id := 2, config_type := .ruleset, version := 2, status := .active,
            rollout_percent := 100 } ∧
    ({ config_version_id := 1, action := .rollback, before_status := some .active,
       after_status := some .rolledBack } : AuditRow)
      ∈ (activateConfig demoStateDeploying 2).2.logs ∧
    countActive (activateConfig demoStateDeploying 2).2 .ruleset ≤ 1 := by
  have h := activate_config_single_active.1 demoStateDeploying 2
    { id := 2, config_type := .ruleset, version := 2, status := .deploying,
      rollout_percent := 50 }
    (by decide) (by decide) (by decide)
  refine ⟨h.1, ?_, h.2.2.2.2.1⟩
  exact (h.2.2.1
    { id := 1, config_type := .ruleset, version := 1, status := .active,
      rollout_percent := 100 }
    (by decide) (by decide) (by decide) (by decide)).2

-- ===========================================================================
-- C2: filter_and_rank_candidates
-- ===========================================================================

theorem zip_self_map {α β : Type} (l : List α) (f : α → β) :
    l.zip (l.map f) = l.map (fun a => (a, f a)) := by
  induction l with
  | nil => rfl
  | cons a t ih => simp [List.zip_cons_cons, ih]

theorem mergedResult_eq_mergedFor (profile : HealthProfile) (c : NutrientCandidate) :
    mergedResult profile c = mergedFor profile c.nutrient := rfl

theorem filterAndRank_eq (profile : HealthProfile) (candidates : List NutrientCandidate) :
    filterAndRankCandidates profile candidates =
      sortLe (fun a b => decide (b.base_score ≤ a.base_score))
        (candidates.filterMap (fun c =>
          if (mergedFor profile c.nutrient).action ≠ .block then
            some { nutrient := c.nutrient,
                   base_score := c.base_score * (mergedFor profile c.nutrient).weight_modifier }
          else none)) := by
  unfold filterAndRankCandidates applySafetyRules
  dsimp only
  rw [zip_self_map, List.filterMap_map]
  rfl

/-- C2: `filter_and_rank_candidates` never returns a candidate whose merged
rule action is BLOCK; every surviving candidate's score is its input
base score times the merged weight modifier (the minimum over the triggered
allergy/condition/drug modifiers, computed by `_merge_rule_results`); and
the result is sorted in descending score order. -/
theorem filter_and_rank_correct (profile : HealthProfile)
    (candidates : List NutrientCandidate) :
    (∀ e ∈ filterAndRankCandidates profile candidates,
      (mergedFor profile e.nutrient).action ≠ .block ∧
      ∃ c ∈ candidates, e.nutrient = c.nutrient ∧
        e.base_score = c.base_score * (mergedFor profile c.nutrient).weight_modifier) ∧
    (filterAndRankCandidates profile candidates).Pairwise
      (fun a b => b.base_score ≤ a.base_score) := by
  constructor
  · intro e he
    rw [filterAndRank_eq] at he
    rw [mem_sortLe] at he
    rcases List.mem_filterMap.1 he with ⟨c, hc, hce⟩
    by_cases hblk : (mergedFor profile c.nutrient).action ≠ .block
    · rw [if_pos hblk] at hce
      have he' := Option.some.inj hce
      constructor
      · rw [← he']
        exact hblk
      · exact ⟨c, hc, by rw [← he'], by rw [← he']⟩
    · rw [if_neg hblk] at hce
      cases hce
  · rw [filterAndRank_eq]
    have hsorted := @sortLe_pairwise NutrientCandidate
      (fun a b : NutrientCandidate => decide (b.base_score ≤ a.base_score))
      (fun a b => by
        rcases le_total b.base_score a.base_score with h | h
        · left; simpa using h
        · right; simpa using h)
      (fun a b c hab hbc => by
        simp only [decide_eq_true_eq] at hab hbc ⊢
        exact le_trans hbc hab)
      (candidates.filterMap (fun c =>
        if (mergedFor profile c.nutrient).action ≠ .block then
          some { nutrient := c.nutrient,
                 base_score := c.base_score * (mergedFor profile c.nutrient).weight_modifier }
        else none))
    exact hsorted.imp (fun h => by simpa using h)

/-- Witness for C2: the shellfish+warfarin profile over the demo candidates;
the blocked `omega_3_krill` is gone, `omega_3` is reweighted to 80·0.5 = 40
and the list is sorted descending. -/
theorem filter_and_rank_correct_witness :
    ((⟨"vitamin_c", 70⟩ : NutrientCandidate) ∈ filterAndRankCandidates
      { allergies := ["shellfish"], medications := ["warfarin"] } demoCandidates) ∧
    (mergedFor { allergies := ["shellfish"], medications := ["warfarin"] }
      "vitamin_c").action ≠ .block := by
  have hmem : (⟨"vitamin_c", 70⟩ : NutrientCandidate) ∈ filterAndRankCandidates
      { allergies := ["shellfish"], medications := ["warfarin"] } demoCandidates := by
    with_unfolding_all decide
  exact ⟨hmem,
    ((filter_and_rank_correct
      { allergies := ["shellfish"], medications := ["warfarin"] } demoCandidates).1
      _ hmem).1⟩

-- ===========================================================================
-- C4: hybrid scoring bounds and ordering
-- ===========================================================================

theorem dictAdd_nonneg {l : List (String × ℚ)} {k : String} {v : ℚ}
    (hl : ∀ p ∈ l, 0 ≤ p.2) (hv : 0 ≤ v) : ∀ p ∈ dictAdd l k v, 0 ≤ p.2 := by
  induction l with
  | nil =>
    intro p hp
    simp only [dictAdd, List.mem_singleton] at hp
    rw [hp]
    exact hv
  | cons q t ih =>
    intro p hp
    obtain ⟨k', v'⟩ := q
    simp only [dictAdd] at hp
    by_cases hk : k' = k
    · rw [if_pos hk] at hp
      rcases List.mem_cons.1 hp with rfl | hp'
      · have := hl (k', v') (List.mem_cons_self _ _)
        simpa using add_nonneg this hv
      · exact hl p (List.mem_cons_of_mem _ hp')
    · rw [if_neg hk] at hp
      rcases List.mem_cons.1 hp with rfl | hp'
      · exact hl (k', v') (List.mem_cons_self _ _)
      · exact ih (fun q hq => hl q (List.mem_cons_of_mem _ hq)) p hp'

theorem dictAdd_keys {l : List (String × ℚ)} {k : String} {v : ℚ} :
    ∀ p ∈ dictAdd l k v, p.1 = k ∨ p.1 ∈ l.map Prod.fst := by
  induction l with
  | nil =>
    intro p hp
    simp only [dictAdd, List.mem_singleton] at hp
    left
    rw [hp]
  | cons q t ih =>
    intro p hp
    obtain ⟨k', v'⟩ := q
    simp only [dictAdd] at hp
    by_cases hk : k' = k
    · rw [if_pos hk] at hp
      rcases List.mem_cons.1 hp with rfl | hp'
      · left; exact hk
      · right
        exact List.mem_map.2 ⟨p, List.mem_cons_of_mem _ hp', rfl⟩
    · rw [if_neg hk] at hp
      rcases List.mem_cons.1 hp with rfl | hp'
      · right; simp
      · rcases ih p hp' with h | h
        · left; exact h
        · right
          simp only [List.map_cons, List.mem_cons]
          right; exact h

theorem applyEntries_inv {U : List String}
    {st : ScoreState} {entries : List (String × ℚ)} {reason : String}
    (h1 : ∀ p ∈ st.1, 0 ≤ p.2 ∧ p.1 ∈ U)
    (h2 : ∀ e ∈ entries, 0 ≤ e.2 ∧ e.1 ∈ U) :
    ∀ p ∈ (applyEntries st entries reason).1, 0 ≤ p.2 ∧ p.1 ∈ U := by
  induction entries generalizing st with
  | nil => exact h1
  | cons e t ih =>
    have he := h2 e (List.mem_cons_self _ _)
    refine @ih (dictAdd st.1 e.1 e.2, dictAddReason st.2 e.1 reason) ?_
      (fun x hx => h2 x (List.mem_cons_of_mem _ hx))
    intro p hp
    refine ⟨dictAdd_nonneg (fun q hq => (h1 q hq).1) he.1 p hp, ?_⟩
    rcases dictAdd_keys p hp with h | h
    · rw [h]; exact he.2
    · rcases List.mem_map.1 h with ⟨q, hq, hqk⟩
      rw [← hqk]
      exact (h1 q hq).2

theorem foldlQ_ge_seed (a : ℚ) (t : List (String × ℚ)) :
    a ≤ t.foldl (fun m q => max m q.2) a := by
  induction t generalizing a with
  | nil => simp
  | cons q qs ih => exact le_trans (le_max_left a q.2) (ih (max a q.2))

theorem foldlQ_ge_mem (a : ℚ) (t : List (String × ℚ)) :
    ∀ p ∈ t, p.2 ≤ t.foldl (fun m q => max m q.2) a := by
  induction t generalizing a with
  | nil => intro p hp; cases hp
  | cons r rs ih =>
    intro p hp
    simp only [List.foldl_cons]
    rcases List.mem_cons.1 hp with rfl | hp'
    · exact le_trans (le_max_right a p.2) (foldlQ_ge_seed _ rs)
    · exact ih (max a r.2) p hp'

theorem maxScoreVal_ge {l : List (String × ℚ)} : ∀ p ∈ l, p.2 ≤ maxScoreVal l := by
  cases l with
  | nil => intro p hp; cases hp
  | cons q t =>
    intro p hp
    rcases List.mem_cons.1 hp with rfl | hp'
    · exact foldlQ_ge_seed p.2 t
    · exact foldlQ_ge_mem q.2 t p hp'

theorem normalizeScores_props {l : List (String × ℚ)} (h : ∀ p ∈ l, 0 ≤ p.2) :
    ∀ p ∈ normalizeScores l, (0 ≤ p.2 ∧ p.2 ≤ 100) ∧ p.1 ∈ l.map Prod.fst := by
  intro p hp
  unfold normalizeScores at hp
  by_cases hemp : l.isEmpty = true
  · rw [if_pos hemp] at hp
    cases l with
    | nil => cases hp
    | cons q t => simp at hemp
  · rw [if_neg hemp] at hp
    by_cases hm : 0 < maxScoreVal l
    · rw [if_pos hm] at hp
      rcases List.mem_map.1 hp with ⟨q, hq, hqp⟩
      refine ⟨⟨?_, ?_⟩, ?_⟩
      · rw [← hqp]
        have h1 : 0 ≤ q.2 / maxScoreVal l * 100 :=
          mul_nonneg (div_nonneg (h q hq) (le_of_lt hm)) (by norm_num)
        show (0 : ℚ) ≤ min 100 (q.2 / maxScoreVal l * 100)
        exact le_min (by norm_num) h1
      · rw [← hqp]
        simp only []
        exact min_le_left (100 : ℚ) _
      · rw [← hqp]
        exact List.mem_map.2 ⟨q, hq, rfl⟩
    · rw [if_neg hm] at hp
      refine ⟨⟨h p hp, ?_⟩, List.mem_map.2 ⟨p, hp, rfl⟩⟩
      have h1 : p.2 ≤ maxScoreVal l := maxScoreVal_ge p hp
      have h2 : maxScoreVal l ≤ 0 := le_of_not_lt hm
      linarith

theorem fact_goal_table : ∀ p ∈ GOAL_NUTRIENT_MAPPING, ∀ e ∈ p.2,
    0 ≤ e.2 ∧ e.1 ∈ scoringUniverse := by decide

theorem fact_pref_table : ∀ p ∈ DIETARY_PREFERENCE_MODIFIERS, ∀ e ∈ p.2,
    0 ≤ e.2 ∧ e.1 ∈ scoringUniverse := by decide

theorem fact_metric_table : ∀ p ∈ METRIC_NUTRIENT_MAPPING,
    (∀ e ∈ p.2.low, 0 ≤ e.2 ∧ e.1 ∈ scoringUniverse) ∧
    (∀ e ∈ p.2.high, 0 ≤ e.2 ∧ e.1 ∈ scoringUniverse) := by decide

theorem goalFold_inv (goals : List String) (ini : ScoreState)
    (hini : ∀ p ∈ ini.1, 0 ≤ p.2 ∧ p.1 ∈ scoringUniverse) :
    ∀ p ∈ (goals.foldl (fun st g =>
      match alistGet? GOAL_NUTRIENT_MAPPING g with
      | some m => applyEntries st m ("符合您的健康目标：" ++ g)
      | none => st) ini).1, 0 ≤ p.2 ∧ p.1 ∈ scoringUniverse := by
  induction goals generalizing ini with
  | nil => exact hini
  | cons g gs ih =>
    simp only [List.foldl_cons]
    cases hg : alistGet? GOAL_NUTRIENT_MAPPING g with
    | none => exact ih _ hini
    | some m =>
      refine ih _ (applyEntries_inv hini ?_)
      intro e he
      exact fact_goal_table _ (alistGet?_mem hg) e he

theorem prefFold_inv (prefs : List String) (ini : ScoreState)
    (hini : ∀ p ∈ ini.1, 0 ≤ p.2 ∧ p.1 ∈ scoringUniverse) :
    ∀ p ∈ (prefs.foldl (fun st p =>
      if p = "no_preference" then st
      else match alistGet? DIETARY_PREFERENCE_MODIFIERS p with
        | some m => applyEntries st m ("适合您的饮食偏好：" ++ p)
        | none => st) ini).1, 0 ≤ p.2 ∧ p.1 ∈ scoringUniverse := by
  induction prefs generalizing ini with
  | nil => exact hini
  | cons d ds ih =>
    simp only [List.foldl_cons]
    by_cases hd : d = "no_preference"
    · rw [if_pos hd]
      exact ih _ hini
    · rw [if_neg hd]
      cases hg : alistGet? DIETARY_PREFERENCE_MODIFIERS d with
      | none => exact ih _ hini
      | some m =>
        refine ih _ (applyEntries_inv hini ?_)
        intro e he
        exact fact_pref_table _ (alistGet?_mem hg) e he

theorem questionnaire_props (goals dietary_preferences : List String)
    (budget_max : Option ℚ) :
    ∀ s ∈ questionnaireCalculateScores goals dietary_preferences budget_max,
      (0 ≤ s.questionnaire_score ∧ s.questionnaire_score ≤ 100) ∧
      s.nutrient ∈ scoringUniverse ∧
      s.report_score = 0 ∧ s.final_score = s.questionnaire_score := by
  intro s hs
  unfold questionnaireCalculateScores at hs
  dsimp only at hs
  rcases List.mem_map.1 hs with ⟨p, hp, hps⟩
  have hinv2 := prefFold_inv dietary_preferences _
    (goalFold_inv goals ([], []) (by intro p hp; cases hp))
  have hprops := normalizeScores_props (fun q hq => (hinv2 q hq).1) p hp
  refine ⟨?_, ?_, ?_, ?_⟩
  · rw [← hps]; exact hprops.1
  · rw [← hps]
    rcases List.mem_map.1 hprops.2 with ⟨q, hq, hqk⟩
    show p.1 ∈ scoringUniverse
    rw [← hqk]
    exact (hinv2 q hq).2
  · rw [← hps]
  · rw [← hps]

theorem reportStep_inv {st : ScoreState} {m : LabMetric}
    (hini : ∀ p ∈ st.1, 0 ≤ p.2 ∧ p.1 ∈ scoringUniverse) :
    ∀ p ∈ (reportStep st m).1, 0 ≤ p.2 ∧ p.1 ∈ scoringUniverse := by
  unfold reportStep
  dsimp only
  cases hg : alistGet? METRIC_NUTRIENT_MAPPING ((m.name.getD "").toLower) with
  | none => exact hini
  | some mapping =>
    dsimp only
    by_cases hf : resolveFlag ((m.name.getD "").toLower) m.value
        ((m.flag.getD "normal").toLower) = "low" ∨
        resolveFlag ((m.name.getD "").toLower) m.value
        ((m.flag.getD "normal").toLower) = "high"
    · rw [if_pos hf]
      refine applyEntries_inv hini ?_
      intro e he
      have hfact := fact_metric_table _ (alistGet?_mem hg)
      by_cases hlow : resolveFlag ((m.name.getD "").toLower) m.value
          ((m.flag.getD "normal").toLower) = "low"
      · rw [if_pos hlow] at he
        exact hfact.1 e he
      · rw [if_neg hlow] at he
        exact hfact.2 e he
    · rw [if_neg hf]
      exact hini

theorem metricFold_inv (ms : List LabMetric) (ini : ScoreState)
    (hini : ∀ p ∈ ini.1, 0 ≤ p.2 ∧ p.1 ∈ scoringUniverse) :
    ∀ p ∈ (ms.foldl reportStep ini).1, 0 ≤ p.2 ∧ p.1 ∈ scoringUniverse := by
  induction ms generalizing ini with
  | nil => exact hini
  | cons m ms ih =>
    simp only [List.foldl_cons]
    exact ih _ (reportStep_inv hini)

theorem report_props (lab_metrics : List LabMetric) :
    ∀ s ∈ reportCalculateScores lab_metrics,
      (0 ≤ s.report_score ∧ s.report_score ≤ 100) ∧
      s.nutrient ∈ scoringUniverse ∧
      s.questionnaire_score = 0 ∧ s.final_score = s.report_score := by
  intro s hs
  unfold reportCalculateScores at hs
  dsimp only at hs
  rcases List.mem_map.1 hs with ⟨p, hp, hps⟩
  have hinv := metricFold_inv lab_metrics ([], []) (by intro p hp; cases hp)
  have hprops := normalizeScores_props (fun q hq => (hinv q hq).1) p hp
  refine ⟨?_, ?_, ?_, ?_⟩
  · rw [← hps]; exact hprops.1
  · rw [← hps]
    rcases List.mem_map.1 hprops.2 with ⟨q, hq, hqk⟩
    show p.1 ∈ scoringUniverse
    rw [← hqk]
    exact (hinv q hq).2
  · rw [← hps]
  · rw [← hps]

theorem calculateHybrid_props (goals dietary_preferences : List String)
    (lab_metrics : Option (List LabMetric)) (budget_max : Option ℚ) :
    ∀ e ∈ calculateHybridScores goals dietary_preferences lab_metrics budget_max,
      (0 ≤ e.questionnaire_score ∧ e.questionnaire_score ≤ 100) ∧
      (0 ≤ e.report_score ∧ e.report_score ≤ 100) ∧
      (e.final_score = if labTruthy lab_metrics then
          e.report_score * REPORT_WEIGHT + e.questionnaire_score * QUESTIONNAIRE_WEIGHT
        else e.questionnaire_score) ∧
      e.nutrient ∈ scoringUniverse := by
  intro e he
  unfold calculateHybridScores at he
  dsimp only at he
  rw [mem_sortLe] at he
  rcases List.mem_map.1 he with ⟨n, hn, hne⟩
  have hq : ∀ s, (questionnaireCalculateScores goals dietary_preferences budget_max).find?
      (·.nutrient = n) = some s →
      (0 ≤ s.questionnaire_score ∧ s.questionnaire_score ≤ 100) := by
    intro s hsf
    exact (questionnaire_props goals dietary_preferences budget_max s
      (List.mem_of_find?_eq_some hsf)).1
  have hr : ∀ s, ((if labTruthy lab_metrics then
      reportCalculateScores (lab_metrics.getD []) else []).find?
        (·.nutrient = n)) = some s →
      (0 ≤ s.report_score ∧ s.report_score ≤ 100) := by
    intro s hsf
    have hsm := List.mem_of_find?_eq_some hsf
    by_cases hl : labTruthy lab_metrics = true
    · rw [if_pos hl] at hsm
      exact (report_props (lab_metrics.getD []) s hsm).1
    · rw [if_neg hl] at hsm
      cases hsm
  have hnu : n ∈ scoringUniverse := by
    rcases List.mem_append.1 hn with hq1 | hr1
    · rcases List.mem_map.1 hq1 with ⟨s, hs, hsn⟩
      rw [← hsn]
      exact (questionnaire_props goals dietary_preferences budget_max s hs).2.1
    · rcases List.mem_filter.1 hr1 with ⟨hr2, _⟩
      rcases List.mem_map.1 hr2 with ⟨s, hs, hsn⟩
      by_cases hl : labTruthy lab_metrics = true
      · rw [if_pos hl] at hs
        rw [← hsn]
        exact (report_props (lab_metrics.getD []) s hs).2.1
      · rw [if_neg hl] at hs
        cases hs
  subst hne
  refine ⟨?_, ?_, ?_, hnu⟩
  · cases hqf : (questionnaireCalculateScores goals dietary_preferences budget_max).find?
        (·.nutrient = n) with
    | none => simp [hqf]
    | some s => simpa [hqf] using hq s hqf
  · cases hrf : ((if labTruthy lab_metrics then
        reportCalculateScores (lab_metrics.getD []) else []).find? (·.nutrient = n)) with
    | none => simp [hrf]
    | some s => simpa [hrf] using hr s hrf
  · by_cases hl : labTruthy lab_metrics = true <;> simp [hl]

/-- C4: `get_top_n` returns at most `n` entries, each with `final_score` in
[0,100]; the list is sorted non-increasing by final score, and each entry's
final score is `report*0.7 + questionnaire*0.3` when lab metrics are present
and non-empty, else its questionnaire score. -/
theorem get_top_n_correct (goals dietary_preferences : List String)
    (lab_metrics : Option (List LabMetric)) (budget_max : Option ℚ) (n : Nat) :
    (getTopN goals dietary_preferences lab_metrics budget_max n).length ≤ n ∧
    (∀ e ∈ getTopN goals dietary_preferences lab_metrics budget_max n,
      (0 ≤ e.final_score ∧ e.final_score ≤ 100) ∧
      e.final_score = (if labTruthy lab_metrics then
          e.report_score * REPORT_WEIGHT + e.questionnaire_score * QUESTIONNAIRE_WEIGHT
        else e.questionnaire_score)) ∧
    (getTopN goals dietary_preferences lab_metrics budget_max n).Pairwise
      (fun a b => b.final_score ≤ a.final_score) := by
  refine ⟨List.length_take_le n _, ?_, ?_⟩
  · intro e he
    have he' : e ∈ calculateHybridScores goals dietary_preferences lab_metrics budget_max :=
      (List.take_sublist n _).subset he
    have hp := calculateHybrid_props goals dietary_preferences lab_metrics budget_max e he'
    refine ⟨?_, hp.2.2.1⟩
    rw [hp.2.2.1]
    by_cases hl : labTruthy lab_metrics = true
    · rw [if_pos hl]
      unfold REPORT_WEIGHT QUESTIONNAIRE_WEIGHT
      rcases hp.1 with ⟨hq0, hq1⟩
      rcases hp.2.1 with ⟨hr0, hr1⟩
      constructor <;> nlinarith
    · rw [if_neg hl]
      exact hp.1
  · have hsorted := @sortLe_pairwise NutrientScore
      (fun a b : NutrientScore => decide (b.final_score ≤ a.final_score))
      (fun a b => by
        rcases le_total b.final_score a.final_score with h | h
        · left; simpa using h
        · right; simpa using h)
      (fun a b c hab hbc => by
        simp only [decide_eq_true_eq] at hab hbc ⊢
        exact le_trans hbc hab)
    unfold getTopN calculateHybridScores
    dsimp only
    refine List.Pairwise.sublist (List.take_sublist n _) ?_
    exact (hsorted _).imp (fun h => by simpa using h)

/-- Witness for C4 at the immunity-goal profile with a low-hemoglobin lab
metric. -/
theorem get_top_n_correct_witness :
    ((getTopN ["immunity"] [] (some [demoLabMetricLow]) none 5).length ≤ 5) ∧
    ∀ e ∈ getTopN ["immunity"] [] (some [demoLabMetricLow]) none 5,
      0 ≤ e.final_score ∧ e.final_score ≤ 100 := by
  have h := get_top_n_correct ["immunity"] [] (some [demoLabMetricLow]) none 5
  exact ⟨h.1, fun e he => (h.2.1 e he).1⟩

-- ===========================================================================
-- C1: blocked nutrients never reach the hybrid recommendation items
-- ===========================================================================

theorem fact_allergy_no_universe_block : ∀ p ∈ ALLERGY_RULES, ∀ n ∈ scoringUniverse,
    ((p.2.blocked_nutrients.map (·.toLower)).contains n.toLower) = false := by
  with_unfolding_all decide

theorem fact_condition_no_universe_block : ∀ p ∈ CHRONIC_CONDITION_RULES,
    ∀ n ∈ scoringUniverse,
    ((p.2.blocked_nutrients.map (·.toLower)).contains n.toLower) = false := by
  with_unfolding_all decide

theorem fact_no_critical : ∀ i ∈ DRUG_INTERACTIONS, i.severity ≠ .critical := by decide

theorem checkAllergyRules_no_block {n : String} (hu : n ∈ scoringUniverse) :
    ∀ (allergies : List String) (r : RuleResult),
    checkAllergyRules n allergies = some r → r.action ≠ .block := by
  intro allergies
  induction allergies with
  | nil => intro r hr; cases hr
  | cons a rest ih =>
    intro r hr
    unfold checkAllergyRules at hr
    cases hg : alistGet? ALLERGY_RULES a.toLower with
    | none =>
      rw [hg] at hr
      exact ih r hr
    | some rule =>
      rw [hg] at hr
      have hblk : ((rule.blocked_nutrients.map (·.toLower)).contains n.toLower) = false :=
        fact_allergy_no_universe_block _ (alistGet?_mem hg) n hu
      simp only [hblk, Bool.false_eq_true, if_false] at hr
      by_cases hw : ((rule.warning_nutrients.map (·.toLower)).contains n.toLower) = true
      · simp only [hw, if_true] at hr
        rw [← Option.some.inj hr]
        simp
      · simp only [hw, if_false] at hr
        exact ih r hr

theorem checkChronicConditionRules_no_block {n : String} (hu : n ∈ scoringUniverse) :
    ∀ (conditions : List String) (r : RuleResult),
    checkChronicConditionRules n conditions = some r → r.action ≠ .block := by
  intro conditions
  induction conditions with
  | nil => intro r hr; cases hr
  | cons a rest ih =>
    intro r hr
    unfold checkChronicConditionRules at hr
    cases hg : alistGet? CHRONIC_CONDITION_RULES a.toLower with
    | none =>
      rw [hg] at hr
      exact ih r hr
    | some rule =>
      rw [hg] at hr
      have hblk : ((rule.blocked_nutrients.map (·.toLower)).contains n.toLower) = false :=
        fact_condition_no_universe_block _ (alistGet?_mem hg) n hu
      simp only [hblk, Bool.false_eq_true, if_false] at hr
      by_cases hw : ((rule.warning_nutrients.map (·.toLower)).contains n.toLower) = true
      · simp only [hw, if_true] at hr
        rw [← Option.some.inj hr]
        simp
      · simp only [hw, if_false] at hr
        exact ih r hr

theorem sevFold_ne_critical (l : List DrugInteraction) :
    ∀ (acc : Severity), acc ≠ .critical → (∀ i ∈ l, i.severity ≠ .critical) →
    l.foldl (fun m i => if sevRank i.severity > sevRank m then i.severity else m) acc
      ≠ .critical := by
  induction l with
  | nil => intro acc hacc _; exact hacc
  | cons i t ih =>
    intro acc hacc hl
    simp only [List.foldl_cons]
    refine ih _ ?_ (fun j hj => hl j (List.mem_cons_of_mem _ hj))
    by_cases hv : sevRank i.severity > sevRank acc
    · rw [if_pos hv]
      exact hl i (List.mem_cons_self _ _)
    · rw [if_neg hv]
      exact hacc

theorem maxSeverity_ne_critical {l : List DrugInteraction}
    (h : ∀ i ∈ l, i.severity ≠ .critical) : maxSeverity l ≠ .critical :=
  sevFold_ne_critical l .low (by decide) h

theorem checkDrugInteractions_no_block (n : String) (meds : List String) :
    ∀ r, checkDrugInteractions n meds = some r → r.action ≠ .block := by
  intro r hr
  have hnc : ∀ i ∈ matchedInteractions n meds, i.severity ≠ .critical := by
    intro i hi
    unfold matchedInteractions at hi
    dsimp only at hi
    exact fact_no_critical i (List.mem_filter.1 hi).1
  have hms := maxSeverity_ne_critical hnc
  unfold checkDrugInteractions drugRuleFromMatched at hr
  by_cases hemp : (matchedInteractions n meds).isEmpty = true
  · rw [if_pos hemp] at hr
    cases hr
  · rw [if_neg hemp] at hr
    cases hsev : maxSeverity (matchedInteractions n meds) with
    | critical => exact absurd hsev hms
    | high =>
      rw [hsev] at hr
      rw [← Option.some.inj hr]
      simp
    | medium =>
      rw [hsev] at hr
      rw [← Option.some.inj hr]
      simp
    | low =>
      rw [hsev] at hr
      rw [← Option.some.inj hr]
      simp

theorem checkNutrient_safe_of_universe (n : String) (profile : HealthProfile)
    (hu : n ∈ scoringUniverse) : (checkNutrient n profile).safe = true := by
  unfold checkNutrient
  cases ha : checkAllergyRules n profile.allergies with
  | none =>
    cases hc : checkChronicConditionRules n profile.chronic_conditions with
    | none =>
      cases hd : checkDrugInteractions n profile.medications with
      | none => simp
      | some rd =>
        have := checkDrugInteractions_no_block n profile.medications rd hd
        simp [this]
    | some rc =>
      have hcnb := checkChronicConditionRules_no_block hu _ rc hc
      cases hd : checkDrugInteractions n profile.medications with
      | none => simp [hcnb]
      | some rd =>
        have hdnb := checkDrugInteractions_no_block n profile.medications rd hd
        simp [hcnb, hdnb]
  | some ra =>
    have hanb := checkAllergyRules_no_block hu _ ra ha
    cases hc : checkChronicConditionRules n profile.chronic_conditions with
    | none =>
      cases hd : checkDrugInteractions n profile.medications with
      | none => simp [hanb]
      | some rd =>
        have hdnb := checkDrugInteractions_no_block n profile.medications rd hd
        simp [hanb, hdnb]
    | some rc =>
      have hcnb := checkChronicConditionRules_no_block hu _ rc hc
      cases hd : checkDrugInteractions n profile.medications with
      | none => simp [hanb, hcnb]
      | some rd =>
        have hdnb := checkDrugInteractions_no_block n profile.medications rd hd
        simp [hanb, hcnb, hdnb]

theorem enum_mem_elem {α : Type} {l : List α} {i : Nat} {x : α}
    (h : (i, x) ∈ l.enum) : x ∈ l := by
  have := List.mem_enum h
  rw [this.2]
  exact List.getElem_mem this.1

theorem generateFiltered_mem {profile : RecHealthProfile} {top : List NutrientScore} :
    ∀ p ∈ generateFiltered profile top,
      p.1 ∈ top ∧ p.2 = checkNutrient p.1.nutrient (toRuleProfile profile) := by
  intro p hp
  unfold generateFiltered at hp
  rcases List.mem_filterMap.1 hp with ⟨ns, hns, hne⟩
  dsimp only at hne
  by_cases hc : (checkNutrient ns.nutrient (toRuleProfile profile)).safe = true ∨
      (!(checkNutrient ns.nutrient (toRuleProfile profile)).warnings.isEmpty) = true
  · rw [if_pos (by simpa using hc)] at hne
    have := Option.some.inj hne
    rw [← this]
    exact ⟨hns, rfl⟩
  · rw [if_neg (by simpa using hc)] at hne
    cases hne

theorem generateBackfill_mem {profile : RecHealthProfile} :
    ∀ (rest : List NutrientScore) (acc : List (NutrientScore × SafetyCheck)),
    ∀ p ∈ generateBackfill profile acc rest,
      p ∈ acc ∨ (p.1 ∈ rest ∧ p.2 = checkNutrient p.1.nutrient (toRuleProfile profile)) := by
  intro rest
  induction rest with
  | nil =>
    intro acc p hp
    unfold generateBackfill at hp
    exact Or.inl hp
  | cons ns t ih =>
    intro acc p hp
    unfold generateBackfill at hp
    by_cases hl : acc.length ≥ 5
    · rw [if_pos hl] at hp
      exact Or.inl hp
    · rw [if_neg hl] at hp
      dsimp only at hp
      by_cases hb : (checkNutrient ns.nutrient (toRuleProfile profile)).blocked_by = none
      · rw [if_pos hb] at hp
        rcases ih _ p hp with h | h
        · rcases List.mem_append.1 h with h' | h'
          · exact Or.inl h'
          · right
            have : p = (ns, checkNutrient ns.nutrient (toRuleProfile profile)) := by
              simpa using h'
            rw [this]
            exact ⟨List.mem_cons_self _ _, rfl⟩
        · exact Or.inr ⟨List.mem_cons_of_mem _ h.1, h.2⟩
      · rw [if_neg hb] at hp
        rcases ih _ p hp with h | h
        · exact Or.inl h
        · exact Or.inr ⟨List.mem_cons_of_mem _ h.1, h.2⟩

theorem generateTop5_mem {profile : RecHealthProfile} :
    ∀ p ∈ generateTop5 profile,
      p.1 ∈ getTopN profile.goals profile.dietary_preferences profile.lab_metrics
        profile.budget_max 10 ∧
      p.2 = checkNutrient p.1.nutrient (toRuleProfile profile) := by
  intro p hp
  unfold generateTop5 at hp
  dsimp only at hp
  by_cases hl : ((generateFiltered profile
      (getTopN profile.goals profile.dietary_preferences profile.lab_metrics
        profile.budget_max 10)).take 5).length < 5
  · rw [if_pos hl] at hp
    rcases generateBackfill_mem _ _ p hp with h | h
    · exact generateFiltered_mem p ((List.take_sublist 5 _).subset h)
    · exact ⟨(List.filter_sublist _).subset h.1, h.2⟩
  · rw [if_neg hl] at hp
    exact generateFiltered_mem p ((List.take_sublist 5 _).subset hp)

theorem generateRecs_trace {profile : RecHealthProfile} :
    ∀ item ∈ generateRecs profile,
      ∃ p ∈ generateTop5 profile,
        item.rec_key = p.1.nutrient ∧
        item.safety = mkRecSafety p.2 ∧
        item.why = personalizedWhyNoApi (p.1.reasons.take 5) ∧
        item.confidence = pyInt (min 100 (max 0 p.1.final_score)) := by
  intro item hit
  unfold generateRecs at hit
  dsimp only at hit
  rcases List.mem_map.1 hit with ⟨⟨i, r⟩, hir, hitem⟩
  have hr : r ∈ sortLe (fun a b => decide (a.rank ≤ b.rank))
      ((generateTop5 profile).enum.map (fun p => mkHybridItem p.1 p.2)) :=
    enum_mem_elem hir
  rw [mem_sortLe] at hr
  rcases List.mem_map.1 hr with ⟨⟨j, p⟩, hjp, hmk⟩
  refine ⟨p, enum_mem_elem hjp, ?_, ?_, ?_, ?_⟩ <;>
    · rw [← hitem, ← hmk]
      rfl

/-- C1: no recommendation item returned by `generate` carries a nutrient the
rule engine blocks for the profile (`check_nutrient` always reports safe on
them); in particular, for a profile with the shellfish allergy, the blocked
`omega_3_krill` never appears among the items. -/
theorem generate_never_blocked (session_id : String) (profile : RecHealthProfile)
    (res : RecommendationResult) (h : generate session_id profile = .ok res) :
    ∀ item ∈ res.items,
      (checkNutrient item.rec_key (toRuleProfile profile)).safe = true ∧
      ("shellfish" ∈ profile.allergies → item.rec_key ≠ "omega_3_krill") := by
  have hitems : res.items = generateRecs profile := by
    unfold generate at h
    dsimp only at h
    by_cases hl : (generateRecs profile).length = 5
    · rw [if_pos hl] at h
      rw [← Except.ok.inj h]
    · rw [if_neg hl] at h
      cases h
  intro item hit
  rw [hitems] at hit
  rcases generateRecs_trace item hit with ⟨p, hp, hkey, -, -, -⟩
  have htop := (generateTop5_mem p hp).1
  have hu : p.1.nutrient ∈ scoringUniverse := by
    unfold getTopN at htop
    have := calculateHybrid_props profile.goals profile.dietary_preferences
      profile.lab_metrics profile.budget_max p.1 ((List.take_sublist 10 _).subset htop)
    exact this.2.2.2
  constructor
  · rw [hkey]
    exact checkNutrient_safe_of_universe _ _ hu
  · intro _ hcontra
    rw [hkey] at hcontra
    rw [hcontra] at hu
    exact absurd hu (by decide)

/-- Witness for C1 at the immunity-goal demo profile, where `generate`
succeeds with 5 items. -/
theorem generate_never_blocked_witness :
    ∃ res, generate "demo" demoProfileImmunity = .ok res ∧
      ∀ item ∈ res.items,
        (checkNutrient item.rec_key (toRuleProfile demoProfileImmunity)).safe = true := by
  have h5 : (generateRecs demoProfileImmunity).length = 5 := by with_unfolding_all rfl
  cases hgen : generate "demo" demoProfileImmunity with
  | error e =>
    unfold generate at hgen
    dsimp only at hgen
    rw [if_pos h5] at hgen
    cases hgen
  | ok res =>
    exact ⟨res, rfl, fun item hit =>
      (generate_never_blocked "demo" demoProfileImmunity res hgen item hit).1⟩

-- ===========================================================================
-- C3: the exactly-5-items contract fails on sparse profiles
-- ===========================================================================

/-- C3 (failing input): a profile whose only goal is "sleep" yields just 4
hybrid candidates, the hybrid path never tops up from the nutrient database,
and the `RecommendationResult` items validator therefore raises instead of
returning 5 items. -/
theorem generate_sleep_profile_validation_error :
    (getTopN demoProfileSleep.goals demoProfileSleep.dietary_preferences
      demoProfileSleep.lab_metrics demoProfileSleep.budget_max 10).length = 4 ∧
    (generateRecs demoProfileSleep).length = 4 ∧
    generate "demo" demoProfileSleep =
      .error "Must have exactly 5 recommendations, got 4" := by
  refine ⟨?_, ?_, ?_⟩
  · with_unfolding_all rfl
  · with_unfolding_all rfl
  · with_unfolding_all rfl

-- ===========================================================================
-- C10: item safety blocks across the three construction paths
-- ===========================================================================

theorem mkRecSafety_props (sc : SafetyCheck) :
    ((mkRecSafety sc).requires_professional_consult = true ↔
      (mkRecSafety sc).warnings ≠ []) ∧
    (mkRecSafety sc).interactions = [] := by
  unfold mkRecSafety
  refine ⟨?_, rfl⟩
  simp [List.length_pos]

theorem generateFallback_safety {profile : RecHealthProfile}
    {candidates : List NutrientCandidate} :
    ∀ item ∈ generateFallbackRecommendations profile candidates,
      ∃ sc, item.safety = mkRecSafety sc := by
  intro item hit
  unfold generateFallbackRecommendations at hit
  dsimp only at hit
  rcases List.mem_map.1 hit with ⟨⟨i, c⟩, hic, hitem⟩
  exact ⟨_, by rw [← hitem]⟩

theorem generateSyncRecs_safety {profile : RecHealthProfile} :
    ∀ item ∈ generateSyncRecs profile, ∃ sc, item.safety = mkRecSafety sc := by
  intro item hit
  unfold generateSyncRecs at hit
  dsimp only at hit
  rcases List.mem_map.1 hit with ⟨⟨i, p⟩, hip, hitem⟩
  exact ⟨_, by rw [← hitem]⟩

/-- C10: on the hybrid path of `generate`, on the fallback path, and in
`generate_sync`, every item's `requires_professional_consult` flag is true
exactly when its warnings list is non-empty, and its interactions list is
empty (the rule engine's own consult flags and interaction records are not
propagated). -/
theorem item_safety_consult_iff_warnings (profile : RecHealthProfile)
    (candidates : List NutrientCandidate) (item : RecommendationItem)
    (h : item ∈ generateRecs profile ∨
      item ∈ generateFallbackRecommendations profile candidates ∨
      item ∈ generateSyncRecs profile) :
    (item.safety.requires_professional_consult = true ↔ item.safety.warnings ≠ []) ∧
    item.safety.interactions = [] := by
  have hsc : ∃ sc, item.safety = mkRecSafety sc := by
    rcases h with h | h | h
    · rcases generateRecs_trace item h with ⟨p, -, -, hsafe, -, -⟩
      exact ⟨p.2, hsafe⟩
    · exact generateFallback_safety item h
    · exact generateSyncRecs_safety item h
  rcases hsc with ⟨sc, hsc⟩
  rw [hsc]
  exact mkRecSafety_props sc

/-- Witness for C10 at the first hybrid item of the immunity demo profile. -/
theorem item_safety_consult_iff_warnings_witness :
    ∃ item ∈ generateRecs demoProfileImmunity, item.safety.interactions = [] := by
  have hne : generateRecs demoProfileImmunity ≠ [] := by
    with_unfolding_all decide
  refine ⟨(generateRecs demoProfileImmunity).head hne, List.head_mem hne, ?_⟩
  exact (item_safety_consult_iff_warnings demoProfileImmunity [] _
    (Or.inl (List.head_mem hne))).2

-- ===========================================================================
-- C5: drug-interaction check
-- ===========================================================================

/-- Counterexample to C5 as stated: the medication string "ace_inhibitor"
matches no alias by bidirectional substring (its aliases are Chinese brand
names and specific drug names), yet the source's extra exact-key match
normalizes it, so the check warns about potassium where the claim's
procedure yields no drug-interaction result. -/
theorem drug_normalization_spec_counterexample :
    specNormalizeDrugName "ace_inhibitor" = [] ∧
    normalizeDrugName "ace_inhibitor" = ["ace_inhibitor"] ∧
    specCheckDrugInteractions "potassium" ["ace_inhibitor"] = none ∧
    checkDrugInteractions "potassium" ["ace_inhibitor"] ≠
      specCheckDrugInteractions "potassium" ["ace_inhibitor"] := by
  refine ⟨?_, ?_, ?_, ?_⟩
  · with_unfolding_all rfl
  · with_unfolding_all rfl
  · with_unfolding_all rfl
  · with_unfolding_all decide

theorem sevFold_spec (l : List DrugInteraction) :
    ∀ acc : Severity,
      ((l.foldl (fun m i => if sevRank i.severity > sevRank m then i.severity else m) acc
          = acc ∨
        ∃ i ∈ l, l.foldl (fun m i => if sevRank i.severity > sevRank m then i.severity else m)
          acc = i.severity) ∧
      sevRank acc ≤ sevRank
        (l.foldl (fun m i => if sevRank i.severity > sevRank m then i.severity else m) acc) ∧
      ∀ i ∈ l, sevRank i.severity ≤ sevRank
        (l.foldl (fun m i => if sevRank i.severity > sevRank m then i.severity else m) acc)) := by
  induction l with
  | nil => intro acc; exact ⟨Or.inl rfl, le_refl _, fun i hi => absurd hi (by simp)⟩
  | cons j t ih =>
    intro acc
    simp only [List.foldl_cons]
    by_cases hv : sevRank j.severity > sevRank acc
    · rw [if_pos hv]
      rcases ih j.severity with ⟨hmem, hge, hall⟩
      refine ⟨?_, le_trans (by omega) hge, ?_⟩
      · rcases hmem with h | h
        · exact Or.inr ⟨j, List.mem_cons_self _ _, h⟩
        · rcases h with ⟨i, hi, hie⟩
          exact Or.inr ⟨i, List.mem_cons_of_mem _ hi, hie⟩
      · intro i hi
        rcases List.mem_cons.1 hi with rfl | hi'
        · exact hge
        · exact hall i hi'
    · rw [if_neg hv]
      rcases ih acc with ⟨hmem, hge, hall⟩
      refine ⟨?_, hge, ?_⟩
      · rcases hmem with h | h
        · exact Or.inl h
        · rcases h with ⟨i, hi, hie⟩
          exact Or.inr ⟨i, List.mem_cons_of_mem _ hi, hie⟩
      · intro i hi
        rcases List.mem_cons.1 hi with rfl | hi'
        · exact le_trans (by omega) hge
        · exact hall i hi'

theorem maxSeverity_spec {l : List DrugInteraction} (h : l ≠ []) :
    (∃ i ∈ l, maxSeverity l = i.severity) ∧
    ∀ i ∈ l, sevRank i.severity ≤ sevRank (maxSeverity l) := by
  rcases sevFold_spec l .low with ⟨hmem, -, hall⟩
  refine ⟨?_, hall⟩
  rcases hmem with hlow | hex
  · cases l with
    | nil => exact absurd rfl h
    | cons i t =>
      refine ⟨i, List.mem_cons_self _ _, ?_⟩
      have hi := hall i (List.mem_cons_self _ _)
      unfold maxSeverity
      rw [hlow] at hi ⊢
      cases hs : i.severity <;> rw [hs] at hi <;> simp [sevRank] at hi ⊢
  · exact hex

theorem checkDrug_none_iff (n : String) (meds : List String) :
    checkDrugInteractions n meds = none ↔ matchedInteractions n meds = [] := by
  unfold checkDrugInteractions drugRuleFromMatched
  by_cases hemp : (matchedInteractions n meds).isEmpty = true
  · rw [if_pos hemp]
    simp [List.isEmpty_iff.1 hemp]
  · rw [if_neg hemp]
    have hne : matchedInteractions n meds ≠ [] := by
      simpa [List.isEmpty_iff] using hemp
    cases hsev : maxSeverity (matchedInteractions n meds) <;> simp [hne]

theorem checkDrug_action_weight (n : String) (meds : List String) (r : RuleResult)
    (h : checkDrugInteractions n meds = some r) :
    r.action = (severityActionWeight (maxSeverity (matchedInteractions n meds))).1 ∧
    r.weight_modifier =
      (severityActionWeight (maxSeverity (matchedInteractions n meds))).2 := by
  unfold checkDrugInteractions drugRuleFromMatched at h
  by_cases hemp : (matchedInteractions n meds).isEmpty = true
  · rw [if_pos hemp] at h
    cases h
  · rw [if_neg hemp] at h
    cases hsev : maxSeverity (matchedInteractions n meds) <;> rw [hsev] at h <;>
      rw [← Option.some.inj h] <;> simp [severityActionWeight]

theorem normalizeDrugName_spec (med k : String) :
    k ∈ normalizeDrugName med ↔
      ((med.toLower.trim = k ∧ ∃ al, (k, al) ∈ DRUG_ALIASES) ∨
       ∃ al, (k, al) ∈ DRUG_ALIASES ∧ ∃ a ∈ al,
         (strIn a.toLower med.toLower.trim = true ∨
          strIn med.toLower.trim a.toLower = true)) := by
  unfold normalizeDrugName
  dsimp only
  rw [List.mem_append]
  constructor
  · rintro (hdir | hal)
    · by_cases hs : (alistGet? DRUG_ALIASES med.toLower.trim).isSome = true
      · rw [if_pos hs] at hdir
        rcases Option.isSome_iff_exists.1 hs with ⟨al, hale⟩
        rcases List.mem_singleton.1 hdir with rfl
        exact Or.inl ⟨rfl, al, alistGet?_mem hale⟩
      · rw [if_neg hs] at hdir
        cases hdir
    · rcases List.mem_filterMap.1 hal with ⟨⟨k', al'⟩, hp, hpe⟩
      dsimp only at hpe
      by_cases hany : (al'.any (fun a => strIn a.toLower med.toLower.trim ||
          strIn med.toLower.trim a.toLower)) = true
      · rw [if_pos hany] at hpe
        have hk : k' = k := Option.some.inj hpe
        subst hk
        rcases List.any_eq_true.1 hany with ⟨a, ha, hcond⟩
        rw [Bool.or_eq_true] at hcond
        exact Or.inr ⟨al', hp, a, ha, hcond⟩
      · rw [if_neg hany] at hpe
        cases hpe
  · rintro (⟨hml, al, hale⟩ | ⟨al, hale, a, ha, hcond⟩)
    · left
      have hs : (alistGet? DRUG_ALIASES med.toLower.trim).isSome = true := by
        unfold alistGet?
        cases hf : List.find? (fun p => decide (p.1 = med.toLower.trim)) DRUG_ALIASES with
        | none =>
          have := List.find?_eq_none.1 hf (k, al) hale
          simp [hml] at this
        | some p => simp
      rw [if_pos hs]
      rw [hml]
      exact List.mem_singleton.2 rfl
    · right
      refine List.mem_filterMap.2 ⟨(k, al), hale, ?_⟩
      have hany : ((k, al).2.any (fun a => strIn a.toLower med.toLower.trim ||
          strIn med.toLower.trim a.toLower)) = true := by
        refine List.any_eq_true.2 ⟨a, ha, ?_⟩
        rw [Bool.or_eq_true]
        exact hcond
      rw [if_pos hany]

/-- C5 (amended): the drug-interaction check normalizes each medication by
case-insensitive bidirectional substring match against the alias table
**or** an exact match of the lowercased, stripped medication against a
canonical drug key; it collects the interactions between matched canonical
drugs and the nutrient, takes the maximum severity over the matches, and
maps it to CRITICAL→BLOCK/0.0, HIGH→WARN/0.3, MEDIUM→WARN/0.6,
LOW→ALLOW/0.9; with no matches it produces no drug-interaction result. -/
theorem drug_interaction_check_correct :
    (∀ med k, k ∈ normalizeDrugName med ↔
      ((med.toLower.trim = k ∧ ∃ al, (k, al) ∈ DRUG_ALIASES) ∨
       ∃ al, (k, al) ∈ DRUG_ALIASES ∧ ∃ a ∈ al,
         (strIn a.toLower med.toLower.trim = true ∨
          strIn med.toLower.trim a.toLower = true))) ∧
    (∀ n meds, checkDrugInteractions n meds = none ↔ matchedInteractions n meds = []) ∧
    (∀ n meds r, checkDrugInteractions n meds = some r →
      r.action = (severityActionWeight (maxSeverity (matchedInteractions n meds))).1 ∧
      r.weight_modifier =
        (severityActionWeight (maxSeverity (matchedInteractions n meds))).2) ∧
    (∀ n meds, matchedInteractions n meds ≠ [] →
      (∃ i ∈ matchedInteractions n meds,
        maxSeverity (matchedInteractions n meds) = i.severity) ∧
      ∀ i ∈ matchedInteractions n meds,
        sevRank i.severity ≤ sevRank (maxSeverity (matchedInteractions n meds))) :=
  ⟨normalizeDrugName_spec,
   checkDrug_none_iff,
   checkDrug_action_weight,
   fun _ _ h => maxSeverity_spec h⟩

/-- Witness for C5 (amended): aspirin has no interaction with vitamin C, so
the check yields no result; warfarin×omega-3 is matched at MEDIUM. -/
theorem drug_interaction_check_correct_witness :
    checkDrugInteractions "vitamin_c" ["aspirin"] = none ∧
    "warfarin" ∈ normalizeDrugName "Coumadin 5mg" := by
  constructor
  · exact (drug_interaction_check_correct.2.1 "vitamin_c" ["aspirin"]).2
      (by with_unfolding_all rfl)
  · refine (drug_interaction_check_correct.1 "Coumadin 5mg" "warfarin").2 ?_
    refine Or.inr ⟨["华法林", "warfarin", "coumadin", "香豆素"], by decide, "coumadin",
      by decide, Or.inl ?_⟩
    with_unfolding_all rfl
